import Mathlib

/-!
Verification development for the snapshotter MCP server
(source files: main.py and mcp_models.py).

The server is a thin adapter: each tool builds a URL from its arguments,
performs one HTTP GET against a configured base URL, checks the status,
and validates the JSON body against a pydantic model before returning it.

Shallow embedding conventions:
- JSON values are the inductive type Json below; JSON numbers are
  rationals (a number is an integer exactly when its denominator is 1,
  mirroring the fact that the python validator accepts the float 2.0 for
  an int field but rejects 2.5).  The lax numeric-string coercion of the
  python validator is modelled where a stated property depends on it:
  the nullable float values of the token price map accept numeric
  strings through floatParsable below.  The record-field checkers for
  int and float fields take numbers as JSON numbers; none of the stated
  properties depends on string coercion at those fields.
- Each pydantic model class becomes a field-specification list plus a
  structural validator (vRecord).  Models whose typed instances matter to
  the properties below (TokenMetadata, Epoch, PoolMetadata) additionally
  get a typed parse function returning a Lean structure.
- Each async handler of main.py becomes a pure function from a
  configuration, a network oracle (Request to HttpResponse) and its
  arguments, returning the outcome together with the list of requests it
  issued (the request trace).  On success the handler returns the JSON
  body whose validation succeeded.
-/

/-- A JSON value.  Object fields are an association list in document
order; bodies produced by the remote API are assumed to have distinct
keys, and field lookup takes the first occurrence. -/
inductive Json where
  | null
  | boolVal (b : Bool)
  | num (n : Rat)
  | str (s : String)
  | arr (elems : List Json)
  | obj (fields : List (String × Json))

/-- A structural validation error: a missing required field at a path, a
value of the wrong shape at a path, or a response body that is not valid
JSON at all. -/
inductive ValErr where
  | missing (path : List String)
  | wrongType (path : List String)
  | notJson
deriving DecidableEq

/-- First-occurrence lookup of a field in a JSON object. -/
def lookupField : List (String × Json) → String → Option Json
  | [], _ => none
  | (k2, v) :: rest, k => if k2 = k then some v else lookupField rest k

/-- Checker for a python str field: accepts exactly JSON strings (the
python validator does not coerce numbers to strings). -/
def vStr (path : List String) : Json → Except ValErr Unit
  | .str _ => .ok ()
  | _ => .error (.wrongType path)

/-- Checker for a python int field: accepts exactly integral JSON
numbers. -/
def vInt (path : List String) : Json → Except ValErr Unit
  | .num n => if n.den = 1 then .ok () else .error (.wrongType path)
  | _ => .error (.wrongType path)

/-- Checker for a python float field: accepts any JSON number. -/
def vFloat (path : List String) : Json → Except ValErr Unit
  | .num _ => .ok ()
  | _ => .error (.wrongType path)

/-- Checker for a python bool field. -/
def vBool (path : List String) : Json → Except ValErr Unit
  | .boolVal _ => .ok ()
  | _ => .error (.wrongType path)

/-- Checker for a python Any field: accepts every JSON value. -/
def vAny (_path : List String) (_j : Json) : Except ValErr Unit := .ok ()

/-- A character the numeric-string coercion strips at either end. -/
def isSpaceChar (c : Char) : Bool :=
  c = ' ' || c = '\t' || c = '\n' || c = '\r'

/-- Strip surrounding whitespace from a character list. -/
def trimChars (cs : List Char) : List Char :=
  ((cs.dropWhile isSpaceChar).reverse.dropWhile isSpaceChar).reverse

/-- Lowercase every character of a list. -/
def lowerChars (cs : List Char) : List Char := cs.map Char.toLower

/-- Drop one leading sign character, if present. -/
def stripSign : List Char → List Char
  | '+' :: cs => cs
  | '-' :: cs => cs
  | cs => cs

/-- Split a character list at the first occurrence of a character,
returning the parts before and after it, or none when it is absent. -/
def splitOnChar (c : Char) : List Char → Option (List Char × List Char)
  | [] => none
  | x :: xs =>
      if x = c then some ([], xs)
      else
        match splitOnChar c xs with
        | some (l, r) => some (x :: l, r)
        | none => none

/-- Whether a character list is a decimal mantissa: digits, optionally
split by one point, with at least one digit present. -/
def mantissaOk (cs : List Char) : Bool :=
  match splitOnChar '.' cs with
  | none => !cs.isEmpty && cs.all Char.isDigit
  | some (intPart, fracPart) =>
      (!intPart.isEmpty || !fracPart.isEmpty) &&
      intPart.all Char.isDigit && fracPart.all Char.isDigit

/-- Whether a character list is an exponent part: an optional sign then
at least one digit. -/
def exponentOk (cs : List Char) : Bool :=
  let cs2 := stripSign cs
  !cs2.isEmpty && cs2.all Char.isDigit

/-- Modelled from the spec: the lenient numeric-string coercion of the
source ecosystem validator (section 4.1: validation coerces lenient
types such as numeric strings where the source ecosystem validator
would), whose implementation lives in the validation library, not in
this repository.  A string is accepted as a float when, after stripping
surrounding whitespace, lowercasing and one optional sign, it is inf,
infinity or nan, or a decimal mantissa with an optional exponent. -/
def floatParsable (s : String) : Bool :=
  let cs := stripSign (lowerChars (trimChars s.data))
  if cs = "inf".data || cs = "infinity".data || cs = "nan".data then true
  else
    match splitOnChar 'e' cs with
    | none => mantissaOk cs
    | some (m, ex) => mantissaOk m && exponentOk ex

/-- Checker for an Optional float value: null and numbers are accepted,
and so is a numeric string through the lenient coercion; everything
else is rejected. -/
def vOptFloat (path : List String) : Json → Except ValErr Unit
  | .null => .ok ()
  | .num _ => .ok ()
  | .str s => if floatParsable s then .ok () else .error (.wrongType path)
  | _ => .error (.wrongType path)

/-- Element loop for list checking; the element path records the index. -/
def vListGo (elem : List String → Json → Except ValErr Unit)
    (path : List String) (i : Nat) : List Json → Except ValErr Unit
  | [] => .ok ()
  | x :: rest =>
      match elem (path ++ [toString i]) x with
      | .ok () => vListGo elem path (i + 1) rest
      | .error e => .error e

/-- Checker for a python List field: accepts exactly JSON arrays all of
whose elements pass the element checker. -/
def vList (elem : List String → Json → Except ValErr Unit)
    (path : List String) : Json → Except ValErr Unit
  | .arr xs => vListGo elem path 0 xs
  | _ => .error (.wrongType path)

/-- Value loop for dictionary checking; the value path records the key. -/
def vDictGo (elem : List String → Json → Except ValErr Unit)
    (path : List String) : List (String × Json) → Except ValErr Unit
  | [] => .ok ()
  | (k, v) :: rest =>
      match elem (path ++ [k]) v with
      | .ok () => vDictGo elem path rest
      | .error e => .error e

/-- Checker for a python Dict with string keys: accepts exactly JSON
objects all of whose values pass the value checker. -/
def vDict (elem : List String → Json → Except ValErr Unit)
    (path : List String) : Json → Except ValErr Unit
  | .obj fs => vDictGo elem path fs
  | _ => .error (.wrongType path)

/-- Whether a model field is required or optional (an Optional annotated
field with default None). -/
inductive FieldReq where
  | required
  | optional

/-- One declared field of a pydantic model: its name, whether it is
required, and the checker for its value. -/
structure FieldSpec where
  name : String
  req : FieldReq
  check : List String → Json → Except ValErr Unit

/-- Validate one declared field against an object.  A missing required
field is an error naming the field path; a missing or null optional
field is accepted; extra keys of the object are never consulted. -/
def checkField (fs : List (String × Json)) (path : List String)
    (s : FieldSpec) : Except ValErr Unit :=
  match lookupField fs s.name with
  | some j =>
      match s.req, j with
      | .optional, .null => .ok ()
      | _, _ => s.check (path ++ [s.name]) j
  | none =>
      match s.req with
      | .required => .error (.missing (path ++ [s.name]))
      | .optional => .ok ()

/-- Validate the declared fields in declaration order, stopping at the
first error.  Undeclared keys of the object are ignored, matching the
default extra behaviour of the source model classes. -/
def checkFields (fs : List (String × Json)) (path : List String) :
    List FieldSpec → Except ValErr Unit
  | [] => .ok ()
  | s :: rest =>
      match checkField fs path s with
      | .ok () => checkFields fs path rest
      | .error e => .error e

/-- Validator of a record model: the value must be a JSON object and all
declared fields must check out. -/
def vRecord (specs : List FieldSpec) (path : List String) :
    Json → Except ValErr Unit
  | .obj fs => checkFields fs path specs
  | _ => .error (.wrongType path)

/-! Typed parsing for the three models whose typed instances the
properties below inspect. -/

/-- Parse a required field of an object. -/
def parseField (fields : List (String × Json)) (name : String)
    (path : List String) (p : List String → Json → Except ValErr α) :
    Except ValErr α :=
  match lookupField fields name with
  | some j => p (path ++ [name]) j
  | none => .error (.missing (path ++ [name]))

/-- Parse an Optional field of an object with default None: a missing or
null field parses to none. -/
def parseOptField (fields : List (String × Json)) (name : String)
    (path : List String) (p : List String → Json → Except ValErr α) :
    Except ValErr (Option α) :=
  match lookupField fields name with
  | some .null => .ok none
  | some j => (p (path ++ [name]) j).map some
  | none => .ok none

/-- Parse a python str value. -/
def parseStr (path : List String) : Json → Except ValErr String
  | .str s => .ok s
  | _ => .error (.wrongType path)

/-- Parse a python int value (an integral JSON number). -/
def parseInt (path : List String) : Json → Except ValErr Int
  | .num n => if n.den = 1 then .ok n.num else .error (.wrongType path)
  | _ => .error (.wrongType path)

/-- Metadata for a token, from mcp_models.TokenMetadata: the address is
Optional with default None, the rest is required. -/
structure TokenMetadata where
  address : Option String
  name : String
  symbol : String
  decimals : Int
deriving DecidableEq

/-- model_validate for TokenMetadata, returning the typed instance. -/
def TokenMetadata.parse (path : List String) (j : Json) :
    Except ValErr TokenMetadata :=
  match j with
  | .obj fields => do
      let address ← parseOptField fields "address" path parseStr
      let name ← parseField fields "name" path parseStr
      let symbol ← parseField fields "symbol" path parseStr
      let decimals ← parseField fields "decimals" path parseInt
      .ok ⟨address, name, symbol, decimals⟩
  | _ => .error (.wrongType path)

/-- Shape-only validator derived from the typed TokenMetadata parse. -/
def TokenMetadata.validate (path : List String) (j : Json) :
    Except ValErr Unit :=
  match TokenMetadata.parse path j with
  | .ok _ => .ok ()
  | .error e => .error e

/-- An epoch, from mcp_models.Epoch: epochId is Optional with default
None. -/
structure Epoch where
  begin : Int
  «end» : Int
  epochId : Option Int
deriving DecidableEq

/-- model_validate for Epoch, returning the typed instance. -/
def Epoch.parse (path : List String) (j : Json) : Except ValErr Epoch :=
  match j with
  | .obj fields => do
      let b ← parseField fields "begin" path parseInt
      let e ← parseField fields "end" path parseInt
      let epochId ← parseOptField fields "epochId" path parseInt
      .ok ⟨b, e, epochId⟩
  | _ => .error (.wrongType path)

/-- Shape-only validator derived from the typed Epoch parse. -/
def Epoch.validate (path : List String) (j : Json) : Except ValErr Unit :=
  match Epoch.parse path j with
  | .ok _ => .ok ()
  | .error e => .error e

/-- Pool metadata, from mcp_models.PoolMetadata: all five fields are
required; token0 and token1 are nested TokenMetadata records. -/
structure PoolMetadata where
  address : String
  token0 : TokenMetadata
  token1 : TokenMetadata
  fee : Int
  factory : String
deriving DecidableEq

/-- model_validate for PoolMetadata, returning the typed instance.
Fields are validated in declaration order, as the source declares them. -/
def PoolMetadata.parse (path : List String) (j : Json) :
    Except ValErr PoolMetadata :=
  match j with
  | .obj fields => do
      let address ← parseField fields "address" path parseStr
      let token0 ← parseField fields "token0" path TokenMetadata.parse
      let token1 ← parseField fields "token1" path TokenMetadata.parse
      let fee ← parseField fields "fee" path parseInt
      let factory ← parseField fields "factory" path parseStr
      .ok ⟨address, token0, token1, fee, factory⟩
  | _ => .error (.wrongType path)

/-- Shape-only validator derived from the typed PoolMetadata parse. -/
def PoolMetadata.validate (path : List String) (j : Json) :
    Except ValErr Unit :=
  match PoolMetadata.parse path j with
  | .ok _ => .ok ()
  | .error e => .error e

/-! The remaining response model classes of mcp_models.py, as field
specification lists validated by vRecord (the default extra behaviour
ignores undeclared keys).  Class and field names follow the source. -/

/-- Declared fields of mcp_models.Log.  The source also annotates a name
starting with an underscore (a score), which pydantic treats as a
private attribute and never validates, so it is not a declared field. -/
def Log.fields : List FieldSpec :=
  [⟨"address", .required, vStr⟩,
   ⟨"blockNumber", .required, vInt⟩,
   ⟨"data", .required, vStr⟩,
   ⟨"eventName", .required, vStr⟩,
   ⟨"filterName", .required, vStr⟩,
   ⟨"logIndex", .required, vInt⟩,
   ⟨"topics", .required, vList vStr⟩,
   ⟨"transactionHash", .required, vStr⟩,
   ⟨"transactionIndex", .required, vInt⟩]

/-- Validator for mcp_models.Log. -/
def Log.validate : List String → Json → Except ValErr Unit :=
  vRecord Log.fields

/-- Declared fields of mcp_models.TradeData. -/
def TradeData.fields : List FieldSpec :=
  [⟨"amount0", .required, vFloat⟩,
   ⟨"amount1", .required, vFloat⟩,
   ⟨"block_timestamp", .required, vInt⟩,
   ⟨"calculated_eth_price", .required, vFloat⟩,
   ⟨"calculated_token0_amount", .required, vFloat⟩,
   ⟨"calculated_token1_amount", .required, vFloat⟩,
   ⟨"calculated_trade_amount_usd", .required, vFloat⟩,
   ⟨"liquidity", .required, vInt⟩,
   ⟨"recipient", .required, vStr⟩,
   ⟨"sender", .required, vStr⟩,
   ⟨"sqrtPriceX96", .required, vInt⟩,
   ⟨"tick", .required, vInt⟩]

/-- Validator for mcp_models.TradeData. -/
def TradeData.validate : List String → Json → Except ValErr Unit :=
  vRecord TradeData.fields

/-- Declared fields of mcp_models.Trade. -/
def Trade.fields : List FieldSpec :=
  [⟨"tradeType", .required, vStr⟩,
   ⟨"log", .required, Log.validate⟩,
   ⟨"data", .required, TradeData.validate⟩]

/-- Validator for mcp_models.Trade. -/
def Trade.validate : List String → Json → Except ValErr Unit :=
  vRecord Trade.fields

/-- Declared fields of mcp_models.Pagination. -/
def Pagination.fields : List FieldSpec :=
  [⟨"page", .required, vInt⟩,
   ⟨"size", .required, vInt⟩,
   ⟨"total", .required, vInt⟩,
   ⟨"total_pages", .required, vInt⟩]

/-- Validator for mcp_models.Pagination. -/
def Pagination.validate : List String → Json → Except ValErr Unit :=
  vRecord Pagination.fields

/-- Declared fields of mcp_models.GetTokenPoolsResponse. -/
def GetTokenPoolsResponse.fields : List FieldSpec :=
  [⟨"pools", .required, vDict PoolMetadata.validate⟩]

/-- Validator for mcp_models.GetTokenPoolsResponse. -/
def GetTokenPoolsResponse.validate : List String → Json → Except ValErr Unit :=
  vRecord GetTokenPoolsResponse.fields

/-- Declared fields of mcp_models.GetEthPriceResponse. -/
def GetEthPriceResponse.fields : List FieldSpec :=
  [⟨"epoch", .required, Epoch.validate⟩,
   ⟨"ethPrice", .required, vDict vFloat⟩,
   ⟨"previousSnapshots", .required, vList vAny⟩]

/-- Validator for mcp_models.GetEthPriceResponse. -/
def GetEthPriceResponse.validate : List String → Json → Except ValErr Unit :=
  vRecord GetEthPriceResponse.fields

/-- Validator for mcp_models.GetTokenBaseSnapshotsResponse: a root model
whose root is a dictionary from pool address to opaque nested data. -/
def GetTokenBaseSnapshotsResponse.validate :
    List String → Json → Except ValErr Unit :=
  vDict vAny

/-- Declared fields of mcp_models.GetBaseSnapshotResponse. -/
def GetBaseSnapshotResponse.fields : List FieldSpec :=
  [⟨"address", .required, vStr⟩,
   ⟨"epoch", .required, Epoch.validate⟩,
   ⟨"timestamps", .required, vDict vInt⟩,
   ⟨"token0", .required, vStr⟩,
   ⟨"token1", .required, vStr⟩,
   ⟨"token0Reserves", .required, vDict vFloat⟩,
   ⟨"token1Reserves", .required, vDict vFloat⟩,
   ⟨"token0ReservesUSD", .required, vDict vFloat⟩,
   ⟨"token1ReservesUSD", .required, vDict vFloat⟩,
   ⟨"token0Prices", .required, vDict vFloat⟩,
   ⟨"token1Prices", .required, vDict vFloat⟩,
   ⟨"token0PricesUSD", .required, vDict vFloat⟩,
   ⟨"token1PricesUSD", .required, vDict vFloat⟩,
   ⟨"totalTrade", .required, vFloat⟩,
   ⟨"totalTradeMintBurn", .required, vFloat⟩,
   ⟨"totalFee", .required, vFloat⟩,
   ⟨"token0MintBurnVolume", .required, vFloat⟩,
   ⟨"token1MintBurnVolume", .required, vFloat⟩,
   ⟨"token0MintBurnVolumeUSD", .required, vFloat⟩,
   ⟨"token1MintBurnVolumeUSD", .required, vFloat⟩,
   ⟨"token0TradeVolume", .required, vFloat⟩,
   ⟨"token1TradeVolume", .required, vFloat⟩,
   ⟨"token0TradeVolumeUSD", .required, vFloat⟩,
   ⟨"token1TradeVolumeUSD", .required, vFloat⟩,
   ⟨"previousSnapshots", .required, vList vAny⟩]

/-- Validator for mcp_models.GetBaseSnapshotResponse. -/
def GetBaseSnapshotResponse.validate :
    List String → Json → Except ValErr Unit :=
  vRecord GetBaseSnapshotResponse.fields

/-- Declared fields of mcp_models.GetTradesSnapshotResponse. -/
def GetTradesSnapshotResponse.fields : List FieldSpec :=
  [⟨"address", .required, vStr⟩,
   ⟨"epoch", .required, Epoch.validate⟩,
   ⟨"trades", .required, vList Trade.validate⟩,
   ⟨"previousSnapshots", .required, vList vAny⟩]

/-- Validator for mcp_models.GetTradesSnapshotResponse. -/
def GetTradesSnapshotResponse.validate :
    List String → Json → Except ValErr Unit :=
  vRecord GetTradesSnapshotResponse.fields

/-- Declared fields of mcp_models.GetAllTradesSnapshotResponse. -/
def GetAllTradesSnapshotResponse.fields : List FieldSpec :=
  [⟨"epoch", .required, Epoch.validate⟩,
   ⟨"tradeData", .required, vDict GetTradesSnapshotResponse.validate⟩,
   ⟨"previousSnapshots", .required, vList vAny⟩]

/-- Validator for mcp_models.GetAllTradesSnapshotResponse. -/
def GetAllTradesSnapshotResponse.validate :
    List String → Json → Except ValErr Unit :=
  vRecord GetAllTradesSnapshotResponse.fields

/-- Validator for mcp_models.GetTokenPriceAllResponse: a root model whose
root is a dictionary from pool address to a float or None. -/
def GetTokenPriceAllResponse.validate :
    List String → Json → Except ValErr Unit :=
  vDict vOptFloat

/-- Declared fields of mcp_models.GetTradeVolumeAggResponse. -/
def GetTradeVolumeAggResponse.fields : List FieldSpec :=
  [⟨"totalTradeVolume", .required, vFloat⟩,
   ⟨"timeInterval", .required, vInt⟩]

/-- Validator for mcp_models.GetTradeVolumeAggResponse. -/
def GetTradeVolumeAggResponse.validate :
    List String → Json → Except ValErr Unit :=
  vRecord GetTradeVolumeAggResponse.fields

/-- Validator for mcp_models.GetPoolTradesResponse: a root model whose
root is a list of dictionaries with string keys and opaque values. -/
def GetPoolTradesResponse.validate :
    List String → Json → Except ValErr Unit :=
  vList (vDict vAny)

/-- Declared fields of mcp_models.PriceSeriesEntry. -/
def PriceSeriesEntry.fields : List FieldSpec :=
  [⟨"blockNumber", .required, vInt⟩,
   ⟨"price", .required, vFloat⟩,
   ⟨"timestamp", .required, vInt⟩]

/-- Validator for mcp_models.PriceSeriesEntry. -/
def PriceSeriesEntry.validate : List String → Json → Except ValErr Unit :=
  vRecord PriceSeriesEntry.fields

/-- Declared fields of mcp_models.GetTokenPriceSeriesResponse. -/
def GetTokenPriceSeriesResponse.fields : List FieldSpec :=
  [⟨"priceSeries", .required, vList PriceSeriesEntry.validate⟩,
   ⟨"timeInterval", .required, vInt⟩]

/-- Validator for mcp_models.GetTokenPriceSeriesResponse. -/
def GetTokenPriceSeriesResponse.validate :
    List String → Json → Except ValErr Unit :=
  vRecord GetTokenPriceSeriesResponse.fields

/-- Declared fields of mcp_models.ActiveToken. -/
def ActiveToken.fields : List FieldSpec :=
  [⟨"token_address", .required, vStr⟩,
   ⟨"frequency", .required, vInt⟩,
   ⟨"metadata", .required, TokenMetadata.validate⟩]

/-- Validator for mcp_models.ActiveToken. -/
def ActiveToken.validate : List String → Json → Except ValErr Unit :=
  vRecord ActiveToken.fields

/-- Declared fields of mcp_models.GetDailyActiveTokensResponse. -/
def GetDailyActiveTokensResponse.fields : List FieldSpec :=
  [⟨"active_tokens", .required, vList ActiveToken.validate⟩,
   ⟨"pagination", .required, Pagination.validate⟩]

/-- Validator for mcp_models.GetDailyActiveTokensResponse. -/
def GetDailyActiveTokensResponse.validate :
    List String → Json → Except ValErr Unit :=
  vRecord GetDailyActiveTokensResponse.fields

/-- Declared fields of mcp_models.ActivePool. -/
def ActivePool.fields : List FieldSpec :=
  [⟨"pool_address", .required, vStr⟩,
   ⟨"frequency", .required, vInt⟩,
   ⟨"metadata", .required, PoolMetadata.validate⟩]

/-- Validator for mcp_models.ActivePool. -/
def ActivePool.validate : List String → Json → Except ValErr Unit :=
  vRecord ActivePool.fields

/-- Declared fields of mcp_models.GetDailyActivePoolsResponse. -/
def GetDailyActivePoolsResponse.fields : List FieldSpec :=
  [⟨"active_pools", .required, vList ActivePool.validate⟩,
   ⟨"pagination", .required, Pagination.validate⟩]

/-- Validator for mcp_models.GetDailyActivePoolsResponse. -/
def GetDailyActivePoolsResponse.validate :
    List String → Json → Except ValErr Unit :=
  vRecord GetDailyActivePoolsResponse.fields

/-- Declared fields of mcp_models.HealthCheckResponse. -/
def HealthCheckResponse.fields : List FieldSpec :=
  [⟨"status", .required, vStr⟩]

/-- Validator for mcp_models.HealthCheckResponse. -/
def HealthCheckResponse.validate : List String → Json → Except ValErr Unit :=
  vRecord HealthCheckResponse.fields

/-- Declared fields of mcp_models.GetCurrentEpochDataResponse. -/
def GetCurrentEpochDataResponse.fields : List FieldSpec :=
  [⟨"begin", .required, vInt⟩,
   ⟨"end", .required, vInt⟩,
   ⟨"epochId", .required, vInt⟩]

/-- Validator for mcp_models.GetCurrentEpochDataResponse. -/
def GetCurrentEpochDataResponse.validate :
    List String → Json → Except ValErr Unit :=
  vRecord GetCurrentEpochDataResponse.fields

/-- Declared fields of mcp_models.GetEpochInfoResponse.  Note the source
declares the middle field as blocknumber, all lowercase. -/
def GetEpochInfoResponse.fields : List FieldSpec :=
  [⟨"timestamp", .required, vInt⟩,
   ⟨"blocknumber", .required, vInt⟩,
   ⟨"epochEnd", .required, vInt⟩]

/-- Validator for mcp_models.GetEpochInfoResponse. -/
def GetEpochInfoResponse.validate : List String → Json → Except ValErr Unit :=
  vRecord GetEpochInfoResponse.fields

/-- Declared fields of mcp_models.GetProjectLastFinalizedEpochInfoResponse.
The source declares blocknumber all lowercase here as well. -/
def GetProjectLastFinalizedEpochInfoResponse.fields : List FieldSpec :=
  [⟨"epochId", .required, vInt⟩,
   ⟨"timestamp", .required, vInt⟩,
   ⟨"blocknumber", .required, vInt⟩,
   ⟨"epochEnd", .required, vInt⟩]

/-- Validator for mcp_models.GetProjectLastFinalizedEpochInfoResponse. -/
def GetProjectLastFinalizedEpochInfoResponse.validate :
    List String → Json → Except ValErr Unit :=
  vRecord GetProjectLastFinalizedEpochInfoResponse.fields

/-- Declared fields of mcp_models.GetDataForProjectIdEpochIdResponse. -/
def GetDataForProjectIdEpochIdResponse.fields : List FieldSpec :=
  [⟨"address", .required, vStr⟩,
   ⟨"epoch", .required, Epoch.validate⟩,
   ⟨"previousSnapshots", .required, vList vAny⟩,
   ⟨"timestamps", .required, vDict vInt⟩,
   ⟨"token0", .required, vStr⟩,
   ⟨"token0MintBurnVolume", .required, vFloat⟩,
   ⟨"token0MintBurnVolumeUSD", .required, vFloat⟩,
   ⟨"token0Prices", .required, vDict vFloat⟩,
   ⟨"token0PricesUSD", .required, vDict vFloat⟩,
   ⟨"token0Reserves", .required, vDict vFloat⟩,
   ⟨"token0ReservesUSD", .required, vDict vFloat⟩,
   ⟨"token0TradeVolume", .required, vFloat⟩,
   ⟨"token0TradeVolumeUSD", .required, vFloat⟩,
   ⟨"token1", .required, vStr⟩,
   ⟨"token1MintBurnVolume", .required, vFloat⟩,
   ⟨"token1MintBurnVolumeUSD", .required, vFloat⟩,
   ⟨"token1Prices", .required, vDict vFloat⟩,
   ⟨"token1PricesUSD", .required, vDict vFloat⟩,
   ⟨"token1Reserves", .required, vDict vFloat⟩,
   ⟨"token1ReservesUSD", .required, vDict vFloat⟩,
   ⟨"token1TradeVolume", .required, vFloat⟩,
   ⟨"token1TradeVolumeUSD", .required, vFloat⟩,
   ⟨"totalFee", .required, vFloat⟩,
   ⟨"totalTrade", .required, vFloat⟩,
   ⟨"totalTradeMintBurn", .required, vFloat⟩]

/-- Validator for mcp_models.GetDataForProjectIdEpochIdResponse. -/
def GetDataForProjectIdEpochIdResponse.validate :
    List String → Json → Except ValErr Unit :=
  vRecord GetDataForProjectIdEpochIdResponse.fields

/-- Validator for mcp_models.GetFinalizedCidForProjectIdEpochIdResponse:
a root model whose root is a bare string (the CID). -/
def GetFinalizedCidForProjectIdEpochIdResponse.validate :
    List String → Json → Except ValErr Unit :=
  vStr

/-! The tool dispatcher of main.py.  Each handler is a pure function of
the configuration, a network oracle and its arguments; it returns its
outcome together with the trace of requests it issued. -/

/-- The immutable configuration: the upstream base URL.  main.py reads
it once at startup. -/
structure Config where
  baseUrl : String
deriving DecidableEq

/-- os.getenv with the fixed default of main.py. -/
def configFromEnv (env : Option String) : Config :=
  ⟨env.getD "https://bds-api.powerloom.io"⟩

/-- A query-string value as handed to the HTTP client (an integer or a
boolean, matching the params dictionaries of main.py). -/
inductive QVal where
  | intV (n : Int)
  | boolV (b : Bool)
deriving DecidableEq

/-- One outbound GET request: the URL built from path segments, plus the
query-string key/value pairs (empty for all path-only tools). -/
structure Request where
  url : String
  params : List (String × QVal)
deriving DecidableEq

/-- A request whose query string is empty. -/
def pathReq (u : String) : Request := ⟨u, []⟩

/-- An upstream response body: either parseable JSON or raw text that
json decoding rejects. -/
inductive Body where
  | json (j : Json)
  | text (raw : String)

/-- An upstream HTTP response. -/
structure HttpResponse where
  status : Nat
  body : Body

/-- The network: what the upstream returns for each request. -/
def Oracle : Type := Request → HttpResponse

/-- Success statuses: the HTTP client raises for every status outside
the 2xx range. -/
def is2xx (s : Nat) : Bool := 200 ≤ s && s < 300

/-- The error outcomes a tool invocation can produce: a local usage
error raised before any request, a non-2xx upstream status carrying the
status code and body, or a body that is not JSON or fails schema
validation. -/
inductive ToolError where
  | invalidArgument (msg : String)
  | httpStatus (status : Nat) (body : Body)
  | validation (e : ValErr)

/-- One GET followed by raise_for_status and response.json(): a non-2xx
status becomes an HttpStatus error carrying the status and body, a 2xx
non-JSON body becomes a Validation error, and a 2xx JSON body is
returned. -/
def rawGet (oracle : Oracle) (req : Request) : Except ToolError Json :=
  let resp := oracle req
  if is2xx resp.status then
    match resp.body with
    | .json j => .ok j
    | .text _ => .error (.validation .notJson)
  else
    .error (.httpStatus resp.status resp.body)

/-- The common handler body of main.py: one GET, status check, json
decode, then model validation; the trace is the single request. -/
def getAndValidate (oracle : Oracle) (req : Request)
    (validate : List String → Json → Except ValErr Unit) :
    Except ToolError Json × List Request :=
  (match rawGet oracle req with
   | .ok j =>
       match validate [] j with
       | .ok () => .ok j
       | .error e => .error (.validation e)
   | .error e => .error e,
   [req])

/-- Truthiness of an optional string argument, as python evaluates it in
a conditional: None and the empty string are falsy. -/
def strTruthy : Option String → Bool
  | none => false
  | some s => !s.isEmpty

/-- Truthiness of an optional integer argument, as python evaluates it
in a conditional: None and 0 are falsy. -/
def intTruthy : Option Int → Bool
  | none => false
  | some n => n != 0

/-- Handler for the pool metadata tool. -/
def _get_pool_metadata (cfg : Config) (oracle : Oracle)
    (pool_address : String) : Except ToolError Json × List Request :=
  getAndValidate oracle
    (pathReq (cfg.baseUrl ++ "/pool/" ++ pool_address ++ "/metadata"))
    PoolMetadata.validate

/-- Handler for the token pools tool. -/
def _get_token_pools (cfg : Config) (oracle : Oracle)
    (token_address : String) : Except ToolError Json × List Request :=
  getAndValidate oracle
    (pathReq (cfg.baseUrl ++ "/token/" ++ token_address ++ "/pools"))
    GetTokenPoolsResponse.validate

/-- Handler for the eth price tool.  The source branches on
block_number is None, so a supplied 0 takes the with-block URL. -/
def _get_ethprice (cfg : Config) (oracle : Oracle)
    (block_number : Option Int) : Except ToolError Json × List Request :=
  match block_number with
  | none =>
      getAndValidate oracle (pathReq (cfg.baseUrl ++ "/ethPrice"))
        GetEthPriceResponse.validate
  | some b =>
      getAndValidate oracle
        (pathReq (cfg.baseUrl ++ "/ethPrice/" ++ toString b))
        GetEthPriceResponse.validate

/-- Handler for the token price in pool tool.  The source tests
truthiness of both optional arguments; on success it returns the decoded
JSON body without validating it against any model; with no truthy
pool_address it raises a ValueError before any request. -/
def _get_token_price_pool (cfg : Config) (oracle : Oracle)
    (token_address : String) (pool_address : Option String)
    (block_number : Option Int) : Except ToolError Json × List Request :=
  if strTruthy pool_address && intTruthy block_number then
    let req := pathReq (cfg.baseUrl ++ "/token/price/" ++ token_address
      ++ "/" ++ pool_address.getD "" ++ "/"
      ++ toString (block_number.getD 0))
    (rawGet oracle req, [req])
  else if strTruthy pool_address then
    let req := pathReq (cfg.baseUrl ++ "/token/price/" ++ token_address
      ++ "/" ++ pool_address.getD "")
    (rawGet oracle req, [req])
  else
    (.error (.invalidArgument
      "Either pool_address or block_number must be provided."), [])

/-- Handler for the token base snapshots tool. -/
def _get_token_base_snapshots (cfg : Config) (oracle : Oracle)
    (token_address : String) : Except ToolError Json × List Request :=
  getAndValidate oracle
    (pathReq (cfg.baseUrl ++ "/snapshot/base_all_pools/" ++ token_address))
    GetTokenBaseSnapshotsResponse.validate

/-- Handler for the base snapshot tool.  The source branches on
truthiness of block_number, so a supplied 0 takes the no-block URL. -/
def _get_base_snapshot (cfg : Config) (oracle : Oracle)
    (pool_address : String) (block_number : Option Int) :
    Except ToolError Json × List Request :=
  if intTruthy block_number then
    getAndValidate oracle
      (pathReq (cfg.baseUrl ++ "/snapshot/base/" ++ pool_address ++ "/"
        ++ toString (block_number.getD 0)))
      GetBaseSnapshotResponse.validate
  else
    getAndValidate oracle
      (pathReq (cfg.baseUrl ++ "/snapshot/base/" ++ pool_address))
      GetBaseSnapshotResponse.validate

/-- Handler for the trades snapshot tool; branches on truthiness of
block_number. -/
def _get_trades_snapshot (cfg : Config) (oracle : Oracle)
    (pool_address : String) (block_number : Option Int) :
    Except ToolError Json × List Request :=
  if intTruthy block_number then
    getAndValidate oracle
      (pathReq (cfg.baseUrl ++ "/snapshot/trades/" ++ pool_address ++ "/"
        ++ toString (block_number.getD 0)))
      GetTradesSnapshotResponse.validate
  else
    getAndValidate oracle
      (pathReq (cfg.baseUrl ++ "/snapshot/trades/" ++ pool_address))
      GetTradesSnapshotResponse.validate

/-- Handler for the all trades snapshot tool; branches on truthiness of
block_number. -/
def _get_all_trades_snapshot (cfg : Config) (oracle : Oracle)
    (block_number : Option Int) : Except ToolError Json × List Request :=
  if intTruthy block_number then
    getAndValidate oracle
      (pathReq (cfg.baseUrl ++ "/snapshot/allTrades/"
        ++ toString (block_number.getD 0)))
      GetAllTradesSnapshotResponse.validate
  else
    getAndValidate oracle
      (pathReq (cfg.baseUrl ++ "/snapshot/allTrades"))
      GetAllTradesSnapshotResponse.validate

/-- Handler for the token price across all pools tool; branches on
truthiness of block_number. -/
def _get_token_price_all (cfg : Config) (oracle : Oracle)
    (token_address : String) (block_number : Option Int) :
    Except ToolError Json × List Request :=
  if intTruthy block_number then
    getAndValidate oracle
      (pathReq (cfg.baseUrl ++ "/tokenPrices/all/" ++ token_address ++ "/"
        ++ toString (block_number.getD 0)))
      GetTokenPriceAllResponse.validate
  else
    getAndValidate oracle
      (pathReq (cfg.baseUrl ++ "/tokenPrices/all/" ++ token_address))
      GetTokenPriceAllResponse.validate

/-- Handler for the trade volume aggregation over all pools tool. -/
def _get_trade_volume_agg_all_pools (cfg : Config) (oracle : Oracle)
    (token_address : String) (time_interval : Int) :
    Except ToolError Json × List Request :=
  getAndValidate oracle
    (pathReq (cfg.baseUrl ++ "/tradeVolumeAllPools/" ++ token_address
      ++ "/" ++ toString time_interval))
    GetTradeVolumeAggResponse.validate

/-- Handler for the trade volume aggregation for one pool tool. -/
def _get_trade_volume_agg (cfg : Config) (oracle : Oracle)
    (pool_address : String) (time_interval : Int) :
    Except ToolError Json × List Request :=
  getAndValidate oracle
    (pathReq (cfg.baseUrl ++ "/tradeVolume/" ++ pool_address ++ "/"
      ++ toString time_interval))
    GetTradeVolumeAggResponse.validate

/-- Handler for the pool trades tool. -/
def _get_pool_trades (cfg : Config) (oracle : Oracle)
    (pool_address : String) (start_timestamp end_timestamp : Int) :
    Except ToolError Json × List Request :=
  getAndValidate oracle
    (pathReq (cfg.baseUrl ++ "/poolTrades/" ++ pool_address ++ "/"
      ++ toString start_timestamp ++ "/" ++ toString end_timestamp))
    GetPoolTradesResponse.validate

/-- Handler for the token price series tool. -/
def _get_token_price_series (cfg : Config) (oracle : Oracle)
    (token_address pool_address : String)
    (time_interval step_seconds : Int) :
    Except ToolError Json × List Request :=
  getAndValidate oracle
    (pathReq (cfg.baseUrl ++ "/timeSeries/" ++ token_address ++ "/"
      ++ pool_address ++ "/" ++ toString time_interval ++ "/"
      ++ toString step_seconds))
    GetTokenPriceSeriesResponse.validate

/-- The defaults of the daily active tools, as declared in their python
signatures: page 1, size 50, metadata False, time_interval 86400. -/
def dailyActiveDefaults : Int × Int × Bool × Int := (1, 50, false, 86400)

/-- Handler for the daily active tokens tool: the four controls travel
as query-string key/value pairs, not path segments. -/
def _get_daily_active_tokens (cfg : Config) (oracle : Oracle)
    (page size : Int) (metadata : Bool) (time_interval : Int) :
    Except ToolError Json × List Request :=
  getAndValidate oracle
    ⟨cfg.baseUrl ++ "/dailyActiveTokens",
     [("page", .intV page), ("size", .intV size),
      ("metadata", .boolV metadata), ("time_interval", .intV time_interval)]⟩
    GetDailyActiveTokensResponse.validate

/-- Handler for the daily active pools tool: the four controls travel as
query-string key/value pairs, not path segments. -/
def _get_daily_active_pools (cfg : Config) (oracle : Oracle)
    (page size : Int) (metadata : Bool) (time_interval : Int) :
    Except ToolError Json × List Request :=
  getAndValidate oracle
    ⟨cfg.baseUrl ++ "/dailyActivePools",
     [("page", .intV page), ("size", .intV size),
      ("metadata", .boolV metadata), ("time_interval", .intV time_interval)]⟩
    GetDailyActivePoolsResponse.validate

/-- Handler for the health check tool. -/
def _health_check (cfg : Config) (oracle : Oracle) :
    Except ToolError Json × List Request :=
  getAndValidate oracle (pathReq (cfg.baseUrl ++ "/health"))
    HealthCheckResponse.validate

/-- Handler for the current epoch tool. -/
def _get_current_epoch_data (cfg : Config) (oracle : Oracle) :
    Except ToolError Json × List Request :=
  getAndValidate oracle (pathReq (cfg.baseUrl ++ "/current_epoch"))
    GetCurrentEpochDataResponse.validate

/-- Handler for the epoch info tool. -/
def _get_epoch_info (cfg : Config) (oracle : Oracle) (epoch_id : Int) :
    Except ToolError Json × List Request :=
  getAndValidate oracle
    (pathReq (cfg.baseUrl ++ "/epoch/" ++ toString epoch_id))
    GetEpochInfoResponse.validate

/-- Handler for the project last finalized epoch info tool. -/
def _get_project_last_finalized_epoch_info (cfg : Config) (oracle : Oracle)
    (project_id : String) : Except ToolError Json × List Request :=
  getAndValidate oracle
    (pathReq (cfg.baseUrl ++ "/last_finalized_epoch/" ++ project_id))
    GetProjectLastFinalizedEpochInfoResponse.validate

/-- Handler for the data for project and epoch tool. -/
def _get_data_for_project_id_epoch_id (cfg : Config) (oracle : Oracle)
    (project_id : String) (epoch_id : Int) :
    Except ToolError Json × List Request :=
  getAndValidate oracle
    (pathReq (cfg.baseUrl ++ "/data/" ++ toString epoch_id ++ "/"
      ++ project_id ++ "/"))
    GetDataForProjectIdEpochIdResponse.validate

/-- Handler for the finalized CID for project and epoch tool. -/
def _get_finalized_cid_for_project_id_epoch_id (cfg : Config)
    (oracle : Oracle) (project_id : String) (epoch_id : Int) :
    Except ToolError Json × List Request :=
  getAndValidate oracle
    (pathReq (cfg.baseUrl ++ "/cid/" ++ toString epoch_id ++ "/"
      ++ project_id ++ "/"))
    GetFinalizedCidForProjectIdEpochIdResponse.validate

/-- The declared return annotation of the token price in pool tool is a
bare float: the schema it declares accepts exactly JSON numbers. -/
def tokenPricePoolDeclaredSchema : Json → Bool
  | .num _ => true
  | _ => false

/-! Concrete fixtures used by witnesses and counterexamples. -/

/-- The default configuration of main.py. -/
def cfg0 : Config := configFromEnv none

/-- A network that answers every request with status 404 and the fixture
error body of the specification. -/
def oracle404 : Oracle :=
  fun _ => ⟨404, .json (.obj [("error", .str "not found")])⟩

/-- A network that answers every request with status 200 and a null JSON
body. -/
def ok200 : Oracle := fun _ => ⟨200, .json .null⟩

/-- A network that answers every request with status 200 and a JSON
string body. -/
def oracleStr : Oracle := fun _ => ⟨200, .json (.str "oops")⟩

/-! Generic lemmas about the shared handler body. -/

/-- A handler built from getAndValidate issues exactly the one request
it was given. -/
theorem getAndValidate_snd (oracle : Oracle) (req : Request)
    (V : List String → Json → Except ValErr Unit) :
    (getAndValidate oracle req V).snd = [req] := rfl

/-- If the issued request draws a non-2xx response, the handler fails
with an HttpStatus error carrying exactly that status and body, and the
trace stays the single request. -/
theorem getAndValidate_non2xx (oracle : Oracle) (req : Request)
    (V : List String → Json → Except ValErr Unit)
    (h : is2xx (oracle req).status = false) :
    getAndValidate oracle req V =
      (.error (.httpStatus (oracle req).status (oracle req).body), [req]) := by
  simp [getAndValidate, rawGet, h]

/-- Trace-parameterised form of the non-2xx lemma: whichever single
request the handler traced, a non-2xx answer to it is propagated
unmodified. -/
theorem getAndValidate_non2xx_trace (oracle : Oracle) (r : Request)
    (V : List String → Json → Except ValErr Unit) (req : Request)
    (hreq : (getAndValidate oracle r V).snd = [req])
    (h : is2xx (oracle req).status = false) :
    getAndValidate oracle r V =
      (.error (.httpStatus (oracle req).status (oracle req).body), [req]) := by
  have hr : r = req := by simpa [getAndValidate] using hreq
  subst hr
  exact getAndValidate_non2xx oracle r V h

/-- A value is only returned by getAndValidate if the model validator
accepted it. -/
theorem getAndValidate_fst_ok (oracle : Oracle) (req : Request)
    (V : List String → Json → Except ValErr Unit) (j : Json)
    (h : (getAndValidate oracle req V).fst = .ok j) : V [] j = .ok () := by
  simp only [getAndValidate] at h
  cases hr : rawGet oracle req with
  | ok j2 =>
      cases hv : V [] j2 with
      | ok u =>
          cases u
          simp only [hr, hv, Except.ok.injEq] at h
          exact h ▸ hv
      | error e =>
          simp [hr, hv] at h
  | error e =>
      simp [hr] at h

/-- A 2xx JSON body that fails the model validator makes getAndValidate
fail with exactly that Validation error. -/
theorem getAndValidate_fst_invalid (oracle : Oracle) (r : Request)
    (V : List String → Json → Except ValErr Unit) (req : Request)
    (j : Json) (e : ValErr)
    (hreq : (getAndValidate oracle r V).snd = [req])
    (h2 : is2xx (oracle req).status = true)
    (hb : (oracle req).body = .json j)
    (hv : V [] j = .error e) :
    (getAndValidate oracle r V).fst = .error (.validation e) := by
  have hr : r = req := by simpa [getAndValidate] using hreq
  subst hr
  simp [getAndValidate, rawGet, h2, hb, hv]

/-! Lemmas about field lookup and appended extra fields. -/

/-- Looking a key up in an appended object tries the left part first. -/
theorem lookupField_append (fs extras : List (String × Json)) (k : String) :
    lookupField (fs ++ extras) k =
      match lookupField fs k with
      | some v => some v
      | none => lookupField extras k := by
  induction fs with
  | nil => simp [lookupField]
  | cons p rest ih =>
      cases p with
      | mk k2 v2 =>
          by_cases h : k2 = k <;> simp [lookupField, h, ih]

/-- If a key does not occur in the appended extras, lookup in the
extended object agrees with lookup in the original object. -/
theorem lookupField_append_eq (fs extras : List (String × Json))
    (k : String) (h : lookupField extras k = none) :
    lookupField (fs ++ extras) k = lookupField fs k := by
  rw [lookupField_append]
  cases hfs : lookupField fs k <;> simp [h, hfs]

/-- checkField only consults the object through the lookup of its own
field name. -/
theorem checkField_congr (fs1 fs2 : List (String × Json))
    (path : List String) (s : FieldSpec)
    (h : lookupField fs1 s.name = lookupField fs2 s.name) :
    checkField fs1 path s = checkField fs2 path s := by
  unfold checkField
  rw [h]

/-- checkFields is unchanged by appending fields whose keys are not
declared in the specification list. -/
theorem checkFields_append (specs : List FieldSpec)
    (fs extras : List (String × Json)) (path : List String)
    (h : ∀ s ∈ specs, lookupField extras s.name = none) :
    checkFields (fs ++ extras) path specs = checkFields fs path specs := by
  induction specs with
  | nil => rfl
  | cons s rest ih =>
      have h1 : checkField (fs ++ extras) path s = checkField fs path s :=
        checkField_congr _ _ _ _
          (lookupField_append_eq fs extras s.name (h s (by simp)))
      have h2 := ih (fun s2 hs2 => h s2 (by simp [hs2]))
      simp only [checkFields, h1, h2]

/-- parseField only consults the object through the lookup of its field
name. -/
theorem parseField_congr (fs1 fs2 : List (String × Json)) (name : String)
    (path : List String) (p : List String → Json → Except ValErr α)
    (h : lookupField fs1 name = lookupField fs2 name) :
    parseField fs1 name path p = parseField fs2 name path p := by
  unfold parseField
  rw [h]

/-- parseOptField only consults the object through the lookup of its
field name. -/
theorem parseOptField_congr (fs1 fs2 : List (String × Json)) (name : String)
    (path : List String) (p : List String → Json → Except ValErr α)
    (h : lookupField fs1 name = lookupField fs2 name) :
    parseOptField fs1 name path p = parseOptField fs2 name path p := by
  unfold parseOptField
  rw [h]

/-- Helper: an error outcome is never the successful unit outcome. -/
theorem except_error_ne_ok (e : ValErr) :
    (Except.error e : Except ValErr Unit) ≠ .ok () := by
  intro h
  exact Except.noConfusion h

/-- C10: for every tool, the requests issued (URL and query parameters)
are a deterministic pure function of the arguments and the immutable
configuration: they do not depend on the network at all, so two
invocations with equal arguments under the same configuration issue
GETs to identical URLs. -/
theorem request_trace_deterministic :
    (∀ (cfg : Config) (o1 o2 : Oracle) (a : String),
      (_get_pool_metadata cfg o1 a).snd = (_get_pool_metadata cfg o2 a).snd) ∧
    (∀ (cfg : Config) (o1 o2 : Oracle) (a : String),
      (_get_token_pools cfg o1 a).snd = (_get_token_pools cfg o2 a).snd) ∧
    (∀ (cfg : Config) (o1 o2 : Oracle) (b : Option Int),
      (_get_ethprice cfg o1 b).snd = (_get_ethprice cfg o2 b).snd) ∧
    (∀ (cfg : Config) (o1 o2 : Oracle) (t : String) (p : Option String)
        (b : Option Int),
      (_get_token_price_pool cfg o1 t p b).snd =
        (_get_token_price_pool cfg o2 t p b).snd) ∧
    (∀ (cfg : Config) (o1 o2 : Oracle) (a : String),
      (_get_token_base_snapshots cfg o1 a).snd =
        (_get_token_base_snapshots cfg o2 a).snd) ∧
    (∀ (cfg : Config) (o1 o2 : Oracle) (a : String) (b : Option Int),
      (_get_base_snapshot cfg o1 a b).snd = (_get_base_snapshot cfg o2 a b).snd) ∧
    (∀ (cfg : Config) (o1 o2 : Oracle) (a : String) (b : Option Int),
      (_get_trades_snapshot cfg o1 a b).snd =
        (_get_trades_snapshot cfg o2 a b).snd) ∧
    (∀ (cfg : Config) (o1 o2 : Oracle) (b : Option Int),
      (_get_all_trades_snapshot cfg o1 b).snd =
        (_get_all_trades_snapshot cfg o2 b).snd) ∧
    (∀ (cfg : Config) (o1 o2 : Oracle) (a : String) (b : Option Int),
      (_get_token_price_all cfg o1 a b).snd =
        (_get_token_price_all cfg o2 a b).snd) ∧
    (∀ (cfg : Config) (o1 o2 : Oracle) (a : String) (ti : Int),
      (_get_trade_volume_agg_all_pools cfg o1 a ti).snd =
        (_get_trade_volume_agg_all_pools cfg o2 a ti).snd) ∧
    (∀ (cfg : Config) (o1 o2 : Oracle) (a : String) (ti : Int),
      (_get_trade_volume_agg cfg o1 a ti).snd =
        (_get_trade_volume_agg cfg o2 a ti).snd) ∧
    (∀ (cfg : Config) (o1 o2 : Oracle) (a : String) (s e : Int),
      (_get_pool_trades cfg o1 a s e).snd = (_get_pool_trades cfg o2 a s e).snd) ∧
    (∀ (cfg : Config) (o1 o2 : Oracle) (t p : String) (ti st : Int),
      (_get_token_price_series cfg o1 t p ti st).snd =
        (_get_token_price_series cfg o2 t p ti st).snd) ∧
    (∀ (cfg : Config) (o1 o2 : Oracle) (pg sz : Int) (md : Bool) (ti : Int),
      (_get_daily_active_tokens cfg o1 pg sz md ti).snd =
        (_get_daily_active_tokens cfg o2 pg sz md ti).snd) ∧
    (∀ (cfg : Config) (o1 o2 : Oracle) (pg sz : Int) (md : Bool) (ti : Int),
      (_get_daily_active_pools cfg o1 pg sz md ti).snd =
        (_get_daily_active_pools cfg o2 pg sz md ti).snd) ∧
    (∀ (cfg : Config) (o1 o2 : Oracle),
      (_health_check cfg o1).snd = (_health_check cfg o2).snd) ∧
    (∀ (cfg : Config) (o1 o2 : Oracle),
      (_get_current_epoch_data cfg o1).snd = (_get_current_epoch_data cfg o2).snd) ∧
    (∀ (cfg : Config) (o1 o2 : Oracle) (e : Int),
      (_get_epoch_info cfg o1 e).snd = (_get_epoch_info cfg o2 e).snd) ∧
    (∀ (cfg : Config) (o1 o2 : Oracle) (p : String),
      (_get_project_last_finalized_epoch_info cfg o1 p).snd =
        (_get_project_last_finalized_epoch_info cfg o2 p).snd) ∧
    (∀ (cfg : Config) (o1 o2 : Oracle) (p : String) (e : Int),
      (_get_data_for_project_id_epoch_id cfg o1 p e).snd =
        (_get_data_for_project_id_epoch_id cfg o2 p e).snd) ∧
    (∀ (cfg : Config) (o1 o2 : Oracle) (p : String) (e : Int),
      (_get_finalized_cid_for_project_id_epoch_id cfg o1 p e).snd =
        (_get_finalized_cid_for_project_id_epoch_id cfg o2 p e).snd) := by
  refine ⟨fun _ _ _ _ => rfl, fun _ _ _ _ => rfl, ?_, ?_, fun _ _ _ _ => rfl,
    ?_, ?_, ?_, ?_, fun _ _ _ _ _ => rfl, fun _ _ _ _ _ => rfl,
    fun _ _ _ _ _ _ => rfl, fun _ _ _ _ _ _ _ => rfl,
    fun _ _ _ _ _ _ _ => rfl, fun _ _ _ _ _ _ _ => rfl,
    fun _ _ _ => rfl, fun _ _ _ => rfl, fun _ _ _ _ => rfl,
    fun _ _ _ _ => rfl, fun _ _ _ _ _ => rfl, fun _ _ _ _ _ => rfl⟩
  · intro cfg o1 o2 b
    cases b <;> rfl
  · intro cfg o1 o2 t p b
    unfold _get_token_price_pool
    cases hp : strTruthy p <;> cases hb : intTruthy b <;>
      simp only [hp, hb, Bool.and_self, Bool.and_true, Bool.and_false,
        Bool.true_and, Bool.false_and, if_true, if_false, Bool.false_eq_true,
        reduceIte]
  · intro cfg o1 o2 a b
    unfold _get_base_snapshot
    cases hb : intTruthy b <;> simp only [hb, Bool.false_eq_true, reduceIte] <;> rfl
  · intro cfg o1 o2 a b
    unfold _get_trades_snapshot
    cases hb : intTruthy b <;> simp only [hb, Bool.false_eq_true, reduceIte] <;> rfl
  · intro cfg o1 o2 b
    unfold _get_all_trades_snapshot
    cases hb : intTruthy b <;> simp only [hb, Bool.false_eq_true, reduceIte] <;> rfl
  · intro cfg o1 o2 a b
    unfold _get_token_price_all
    cases hb : intTruthy b <;> simp only [hb, Bool.false_eq_true, reduceIte] <;> rfl

/-- Helper: a GET answered with a non-2xx status produces the HttpStatus
error carrying that status and body. -/
theorem rawGet_non2xx (oracle : Oracle) (req : Request)
    (h : is2xx (oracle req).status = false) :
    rawGet oracle req =
      .error (.httpStatus (oracle req).status (oracle req).body) := by
  simp [rawGet, h]

/-- Helper: the token price in pool handler propagates a non-2xx answer
to its traced request unmodified, with no second request. -/
theorem token_price_pool_non2xx (cfg : Config) (oracle : Oracle)
    (t : String) (p : Option String) (b : Option Int) (req : Request)
    (hreq : (_get_token_price_pool cfg oracle t p b).snd = [req])
    (h : is2xx (oracle req).status = false) :
    _get_token_price_pool cfg oracle t p b =
      (.error (.httpStatus (oracle req).status (oracle req).body), [req]) := by
  unfold _get_token_price_pool at hreq ⊢
  cases hp : strTruthy p <;> cases hb : intTruthy b <;>
    simp only [hp, hb, Bool.and_self, Bool.and_true, Bool.and_false,
      Bool.true_and, Bool.false_and, Bool.false_eq_true, reduceIte] at hreq ⊢
  · exact absurd hreq (by simp)
  · exact absurd hreq (by simp)
  · simp only [List.cons.injEq, and_true] at hreq
    subst hreq
    rw [rawGet_non2xx _ _ h]
  · simp only [List.cons.injEq, and_true] at hreq
    subst hreq
    rw [rawGet_non2xx _ _ h]

/-- C4: for every tool, a non-2xx answer to the single GET it issued
surfaces as an HttpStatus error carrying exactly that status code and
response body, propagated unmodified, and the request trace stays that
one GET (no retry). -/
theorem non2xx_http_status_error :
    (∀ (cfg : Config) (oracle : Oracle) (a : String) (req : Request),
      (_get_pool_metadata cfg oracle a).snd = [req] →
      is2xx (oracle req).status = false →
      _get_pool_metadata cfg oracle a =
        (.error (.httpStatus (oracle req).status (oracle req).body), [req])) ∧
    (∀ (cfg : Config) (oracle : Oracle) (a : String) (req : Request),
      (_get_token_pools cfg oracle a).snd = [req] →
      is2xx (oracle req).status = false →
      _get_token_pools cfg oracle a =
        (.error (.httpStatus (oracle req).status (oracle req).body), [req])) ∧
    (∀ (cfg : Config) (oracle : Oracle) (b : Option Int) (req : Request),
      (_get_ethprice cfg oracle b).snd = [req] →
      is2xx (oracle req).status = false →
      _get_ethprice cfg oracle b =
        (.error (.httpStatus (oracle req).status (oracle req).body), [req])) ∧
    (∀ (cfg : Config) (oracle : Oracle) (t : String) (p : Option String)
        (b : Option Int) (req : Request),
      (_get_token_price_pool cfg oracle t p b).snd = [req] →
      is2xx (oracle req).status = false →
      _get_token_price_pool cfg oracle t p b =
        (.error (.httpStatus (oracle req).status (oracle req).body), [req])) ∧
    (∀ (cfg : Config) (oracle : Oracle) (a : String) (req : Request),
      (_get_token_base_snapshots cfg oracle a).snd = [req] →
      is2xx (oracle req).status = false →
      _get_token_base_snapshots cfg oracle a =
        (.error (.httpStatus (oracle req).status (oracle req).body), [req])) ∧
    (∀ (cfg : Config) (oracle : Oracle) (a : String) (b : Option Int)
        (req : Request),
      (_get_base_snapshot cfg oracle a b).snd = [req] →
      is2xx (oracle req).status = false →
      _get_base_snapshot cfg oracle a b =
        (.error (.httpStatus (oracle req).status (oracle req).body), [req])) ∧
    (∀ (cfg : Config) (oracle : Oracle) (a : String) (b : Option Int)
        (req : Request),
      (_get_trades_snapshot cfg oracle a b).snd = [req] →
      is2xx (oracle req).status = false →
      _get_trades_snapshot cfg oracle a b =
        (.error (.httpStatus (oracle req).status (oracle req).body), [req])) ∧
    (∀ (cfg : Config) (oracle : Oracle) (b : Option Int) (req : Request),
      (_get_all_trades_snapshot cfg oracle b).snd = [req] →
      is2xx (oracle req).status = false →
      _get_all_trades_snapshot cfg oracle b =
        (.error (.httpStatus (oracle req).status (oracle req).body), [req])) ∧
    (∀ (cfg : Config) (oracle : Oracle) (a : String) (b : Option Int)
        (req : Request),
      (_get_token_price_all cfg oracle a b).snd = [req] →
      is2xx (oracle req).status = false →
      _get_token_price_all cfg oracle a b =
        (.error (.httpStatus (oracle req).status (oracle req).body), [req])) ∧
    (∀ (cfg : Config) (oracle : Oracle) (a : String) (ti : Int) (req : Request),
      (_get_trade_volume_agg_all_pools cfg oracle a ti).snd = [req] →
      is2xx (oracle req).status = false →
      _get_trade_volume_agg_all_pools cfg oracle a ti =
        (.error (.httpStatus (oracle req).status (oracle req).body), [req])) ∧
    (∀ (cfg : Config) (oracle : Oracle) (a : String) (ti : Int) (req : Request),
      (_get_trade_volume_agg cfg oracle a ti).snd = [req] →
      is2xx (oracle req).status = false →
      _get_trade_volume_agg cfg oracle a ti =
        (.error (.httpStatus (oracle req).status (oracle req).body), [req])) ∧
    (∀ (cfg : Config) (oracle : Oracle) (a : String) (s e : Int) (req : Request),
      (_get_pool_trades cfg oracle a s e).snd = [req] →
      is2xx (oracle req).status = false →
      _get_pool_trades cfg oracle a s e =
        (.error (.httpStatus (oracle req).status (oracle req).body), [req])) ∧
    (∀ (cfg : Config) (oracle : Oracle) (t p : String) (ti st : Int)
        (req : Request),
      (_get_token_price_series cfg oracle t p ti st).snd = [req] →
      is2xx (oracle req).status = false →
      _get_token_price_series cfg oracle t p ti st =
        (.error (.httpStatus (oracle req).status (oracle req).body), [req])) ∧
    (∀ (cfg : Config) (oracle : Oracle) (pg sz : Int) (md : Bool) (ti : Int)
        (req : Request),
      (_get_daily_active_tokens cfg oracle pg sz md ti).snd = [req] →
      is2xx (oracle req).status = false →
      _get_daily_active_tokens cfg oracle pg sz md ti =
        (.error (.httpStatus (oracle req).status (oracle req).body), [req])) ∧
    (∀ (cfg : Config) (oracle : Oracle) (pg sz : Int) (md : Bool) (ti : Int)
        (req : Request),
      (_get_daily_active_pools cfg oracle pg sz md ti).snd = [req] →
      is2xx (oracle req).status = false →
      _get_daily_active_pools cfg oracle pg sz md ti =
        (.error (.httpStatus (oracle req).status (oracle req).body), [req])) ∧
    (∀ (cfg : Config) (oracle : Oracle) (req : Request),
      (_health_check cfg oracle).snd = [req] →
      is2xx (oracle req).status = false →
      _health_check cfg oracle =
        (.error (.httpStatus (oracle req).status (oracle req).body), [req])) ∧
    (∀ (cfg : Config) (oracle : Oracle) (req : Request),
      (_get_current_epoch_data cfg oracle).snd = [req] →
      is2xx (oracle req).status = false →
      _get_current_epoch_data cfg oracle =
        (.error (.httpStatus (oracle req).status (oracle req).body), [req])) ∧
    (∀ (cfg : Config) (oracle : Oracle) (e : Int) (req : Request),
      (_get_epoch_info cfg oracle e).snd = [req] →
      is2xx (oracle req).status = false →
      _get_epoch_info cfg oracle e =
        (.error (.httpStatus (oracle req).status (oracle req).body), [req])) ∧
    (∀ (cfg : Config) (oracle : Oracle) (p : String) (req : Request),
      (_get_project_last_finalized_epoch_info cfg oracle p).snd = [req] →
      is2xx (oracle req).status = false →
      _get_project_last_finalized_epoch_info cfg oracle p =
        (.error (.httpStatus (oracle req).status (oracle req).body), [req])) ∧
    (∀ (cfg : Config) (oracle : Oracle) (p : String) (e : Int) (req : Request),
      (_get_data_for_project_id_epoch_id cfg oracle p e).snd = [req] →
      is2xx (oracle req).status = false →
      _get_data_for_project_id_epoch_id cfg oracle p e =
        (.error (.httpStatus (oracle req).status (oracle req).body), [req])) ∧
    (∀ (cfg : Config) (oracle : Oracle) (p : String) (e : Int) (req : Request),
      (_get_finalized_cid_for_project_id_epoch_id cfg oracle p e).snd = [req] →
      is2xx (oracle req).status = false →
      _get_finalized_cid_for_project_id_epoch_id cfg oracle p e =
        (.error (.httpStatus (oracle req).status (oracle req).body), [req])) :=
  ⟨fun _ oracle a req hreq h => getAndValidate_non2xx_trace oracle _ _ req hreq h,
   fun _ oracle a req hreq h => getAndValidate_non2xx_trace oracle _ _ req hreq h,
   fun cfg oracle b req hreq h =>
     match b with
     | none => getAndValidate_non2xx_trace oracle _ _ req hreq h
     | some _ => getAndValidate_non2xx_trace oracle _ _ req hreq h,
   fun cfg oracle t p b req hreq h =>
     token_price_pool_non2xx cfg oracle t p b req hreq h,
   fun _ oracle a req hreq h => getAndValidate_non2xx_trace oracle _ _ req hreq h,
   fun cfg oracle a b req hreq h => by
     unfold _get_base_snapshot at hreq ⊢
     cases hb : intTruthy b <;>
       simp only [hb, Bool.false_eq_true, reduceIte] at hreq ⊢ <;>
       exact getAndValidate_non2xx_trace oracle _ _ req hreq h,
   fun cfg oracle a b req hreq h => by
     unfold _get_trades_snapshot at hreq ⊢
     cases hb : intTruthy b <;>
       simp only [hb, Bool.false_eq_true, reduceIte] at hreq ⊢ <;>
       exact getAndValidate_non2xx_trace oracle _ _ req hreq h,
   fun cfg oracle b req hreq h => by
     unfold _get_all_trades_snapshot at hreq ⊢
     cases hb : intTruthy b <;>
       simp only [hb, Bool.false_eq_true, reduceIte] at hreq ⊢ <;>
       exact getAndValidate_non2xx_trace oracle _ _ req hreq h,
   fun cfg oracle a b req hreq h => by
     unfold _get_token_price_all at hreq ⊢
     cases hb : intTruthy b <;>
       simp only [hb, Bool.false_eq_true, reduceIte] at hreq ⊢ <;>
       exact getAndValidate_non2xx_trace oracle _ _ req hreq h,
   fun _ oracle a ti req hreq h => getAndValidate_non2xx_trace oracle _ _ req hreq h,
   fun _ oracle a ti req hreq h => getAndValidate_non2xx_trace oracle _ _ req hreq h,
   fun _ oracle a s e req hreq h => getAndValidate_non2xx_trace oracle _ _ req hreq h,
   fun _ oracle t p ti st req hreq h => getAndValidate_non2xx_trace oracle _ _ req hreq h,
   fun _ oracle pg sz md ti req hreq h => getAndValidate_non2xx_trace oracle _ _ req hreq h,
   fun _ oracle pg sz md ti req hreq h => getAndValidate_non2xx_trace oracle _ _ req hreq h,
   fun _ oracle req hreq h => getAndValidate_non2xx_trace oracle _ _ req hreq h,
   fun _ oracle req hreq h => getAndValidate_non2xx_trace oracle _ _ req hreq h,
   fun _ oracle e req hreq h => getAndValidate_non2xx_trace oracle _ _ req hreq h,
   fun _ oracle p req hreq h => getAndValidate_non2xx_trace oracle _ _ req hreq h,
   fun _ oracle p e req hreq h => getAndValidate_non2xx_trace oracle _ _ req hreq h,
   fun _ oracle p e req hreq h => getAndValidate_non2xx_trace oracle _ _ req hreq h⟩

/-- C4 witness: against the 404 fixture network, the pool metadata tool
fails with an HttpStatus error carrying status 404 and the fixture body,
after exactly one request. -/
theorem non2xx_http_status_error_witness :
    _get_pool_metadata cfg0 oracle404 "0xp" =
      (.error (.httpStatus 404 (.json (.obj [("error", .str "not found")]))),
       [pathReq "https://bds-api.powerloom.io/pool/0xp/metadata"]) :=
  non2xx_http_status_error.1 cfg0 oracle404 "0xp"
    (pathReq "https://bds-api.powerloom.io/pool/0xp/metadata") rfl rfl

/-- C6: the daily active tokens and daily active pools tools send page,
size, metadata and time_interval as query-string key/value pairs on
their single GET (the URL path carries no parameter), with exactly the
caller-supplied values; the declared defaults are page 1, size 50,
metadata false and time_interval 86400, and invoking the handlers at
those defaults sends exactly those values. -/
theorem daily_active_query_params :
    (∀ (cfg : Config) (oracle : Oracle) (pg sz : Int) (md : Bool) (ti : Int),
      (_get_daily_active_tokens cfg oracle pg sz md ti).snd =
        [⟨cfg.baseUrl ++ "/dailyActiveTokens",
          [("page", .intV pg), ("size", .intV sz),
           ("metadata", .boolV md), ("time_interval", .intV ti)]⟩]) ∧
    (∀ (cfg : Config) (oracle : Oracle) (pg sz : Int) (md : Bool) (ti : Int),
      (_get_daily_active_pools cfg oracle pg sz md ti).snd =
        [⟨cfg.baseUrl ++ "/dailyActivePools",
          [("page", .intV pg), ("size", .intV sz),
           ("metadata", .boolV md), ("time_interval", .intV ti)]⟩]) ∧
    dailyActiveDefaults = (1, 50, false, 86400) ∧
    (∀ (cfg : Config) (oracle : Oracle),
      (_get_daily_active_tokens cfg oracle dailyActiveDefaults.1
          dailyActiveDefaults.2.1 dailyActiveDefaults.2.2.1
          dailyActiveDefaults.2.2.2).snd =
        [⟨cfg.baseUrl ++ "/dailyActiveTokens",
          [("page", .intV 1), ("size", .intV 50),
           ("metadata", .boolV false), ("time_interval", .intV 86400)]⟩]) ∧
    (∀ (cfg : Config) (oracle : Oracle),
      (_get_daily_active_pools cfg oracle dailyActiveDefaults.1
          dailyActiveDefaults.2.1 dailyActiveDefaults.2.2.1
          dailyActiveDefaults.2.2.2).snd =
        [⟨cfg.baseUrl ++ "/dailyActivePools",
          [("page", .intV 1), ("size", .intV 50),
           ("metadata", .boolV false), ("time_interval", .intV 86400)]⟩]) :=
  ⟨fun _ _ _ _ _ _ => rfl, fun _ _ _ _ _ _ => rfl, rfl,
   fun _ _ => rfl, fun _ _ => rfl⟩

/-- C2 counterexample: called with a pool address and the block number
0, the token price in pool tool issues the short-path GET, not the
long-path GET the claim requires for the case where both arguments are
supplied. -/
theorem token_price_pool_block_zero_short_path :
    (_get_token_price_pool cfg0 ok200 "0xt" (some "0xp") (some 0)).snd =
      [pathReq "https://bds-api.powerloom.io/token/price/0xt/0xp"] ∧
    (_get_token_price_pool cfg0 ok200 "0xt" (some "0xp") (some 0)).snd ≠
      [pathReq "https://bds-api.powerloom.io/token/price/0xt/0xp/0"] :=
  ⟨rfl, by decide⟩

/-- C2 as amended: with a nonempty pool address and a nonzero block
number the token price in pool tool issues the long-path GET; with a
nonempty pool address and the block number omitted or falsy (that is,
0) it issues the short-path GET; with the pool address omitted or empty
it fails with InvalidArgument before any request, whatever the block
number (zero outbound requests). -/
theorem token_price_pool_url_selection :
    (∀ (cfg : Config) (oracle : Oracle) (t p : String) (b : Int),
      strTruthy (some p) = true → intTruthy (some b) = true →
      (_get_token_price_pool cfg oracle t (some p) (some b)).snd =
        [pathReq (cfg.baseUrl ++ "/token/price/" ++ t ++ "/" ++ p ++ "/"
          ++ toString b)]) ∧
    (∀ (cfg : Config) (oracle : Oracle) (t p : String),
      strTruthy (some p) = true →
      (_get_token_price_pool cfg oracle t (some p) none).snd =
        [pathReq (cfg.baseUrl ++ "/token/price/" ++ t ++ "/" ++ p)]) ∧
    (∀ (cfg : Config) (oracle : Oracle) (t p : String) (b : Int),
      strTruthy (some p) = true → intTruthy (some b) = false →
      (_get_token_price_pool cfg oracle t (some p) (some b)).snd =
        [pathReq (cfg.baseUrl ++ "/token/price/" ++ t ++ "/" ++ p)]) ∧
    (∀ (cfg : Config) (oracle : Oracle) (t : String) (b : Option Int),
      _get_token_price_pool cfg oracle t none b =
        (.error (.invalidArgument
          "Either pool_address or block_number must be provided."), [])) ∧
    (∀ (cfg : Config) (oracle : Oracle) (t : String) (p : String)
        (b : Option Int),
      strTruthy (some p) = false →
      _get_token_price_pool cfg oracle t (some p) b =
        (.error (.invalidArgument
          "Either pool_address or block_number must be provided."), [])) := by
  refine ⟨?_, ?_, ?_, ?_, ?_⟩
  · intro cfg oracle t p b hp hb
    unfold _get_token_price_pool
    simp [hp, hb]
  · intro cfg oracle t p hp
    unfold _get_token_price_pool
    simp [hp, intTruthy]
  · intro cfg oracle t p b hp hb
    unfold _get_token_price_pool
    simp [hp, hb]
  · intro cfg oracle t b
    rfl
  · intro cfg oracle t p b hp
    unfold _get_token_price_pool
    simp [hp]

/-- C2 witness: concrete invocations exercising the amended clauses,
with every hypothesis discharged at the input. -/
theorem token_price_pool_url_selection_witness :
    (_get_token_price_pool cfg0 ok200 "0xt" (some "0xp") (some 5)).snd =
      [pathReq (cfg0.baseUrl ++ "/token/price/" ++ "0xt" ++ "/" ++ "0xp"
        ++ "/" ++ toString (5 : Int))] ∧
    (_get_token_price_pool cfg0 ok200 "0xt" (some "0xp") none).snd =
      [pathReq (cfg0.baseUrl ++ "/token/price/" ++ "0xt" ++ "/" ++ "0xp")] ∧
    (_get_token_price_pool cfg0 ok200 "0xt" (some "0xp") (some 0)).snd =
      [pathReq (cfg0.baseUrl ++ "/token/price/" ++ "0xt" ++ "/" ++ "0xp")] ∧
    _get_token_price_pool cfg0 ok200 "0xt" (some "") (some 5) =
      (.error (.invalidArgument
        "Either pool_address or block_number must be provided."), []) :=
  ⟨token_price_pool_url_selection.1 cfg0 ok200 "0xt" "0xp" 5 rfl rfl,
   token_price_pool_url_selection.2.1 cfg0 ok200 "0xt" "0xp" rfl,
   token_price_pool_url_selection.2.2.1 cfg0 ok200 "0xt" "0xp" 0 rfl rfl,
   token_price_pool_url_selection.2.2.2.2 cfg0 ok200 "0xt" "" (some 5) rfl⟩

/-- C3 counterexample: the base snapshot tool called with block number 0
issues the no-block GET, not the with-block GET the claim requires for a
supplied block number. -/
theorem base_snapshot_block_zero_uses_no_block_url :
    (_get_base_snapshot cfg0 ok200 "0xpool" (some 0)).snd =
      [pathReq "https://bds-api.powerloom.io/snapshot/base/0xpool"] ∧
    (_get_base_snapshot cfg0 ok200 "0xpool" (some 0)).snd ≠
      [pathReq "https://bds-api.powerloom.io/snapshot/base/0xpool/0"] :=
  ⟨rfl, by decide⟩

/-- C3 as amended: the eth price tool branches on the block number being
absent, so it uses the no-block URL exactly when the block number is
omitted and the with-block URL for every supplied value including 0;
the base snapshot, trades snapshot, all trades snapshot and token price
across all pools tools branch on truthiness, so they use the with-block
URL exactly when the supplied block number is nonzero and the no-block
URL when it is omitted or 0.  In every case the trace is one single
request, so the two variants are never mixed. -/
theorem optional_block_url_selection :
    (∀ (cfg : Config) (oracle : Oracle),
      (_get_ethprice cfg oracle none).snd =
        [pathReq (cfg.baseUrl ++ "/ethPrice")]) ∧
    (∀ (cfg : Config) (oracle : Oracle) (b : Int),
      (_get_ethprice cfg oracle (some b)).snd =
        [pathReq (cfg.baseUrl ++ "/ethPrice/" ++ toString b)]) ∧
    (∀ (cfg : Config) (oracle : Oracle) (a : String),
      (_get_base_snapshot cfg oracle a none).snd =
        [pathReq (cfg.baseUrl ++ "/snapshot/base/" ++ a)]) ∧
    (∀ (cfg : Config) (oracle : Oracle) (a : String) (b : Int),
      intTruthy (some b) = true →
      (_get_base_snapshot cfg oracle a (some b)).snd =
        [pathReq (cfg.baseUrl ++ "/snapshot/base/" ++ a ++ "/" ++ toString b)]) ∧
    (∀ (cfg : Config) (oracle : Oracle) (a : String) (b : Int),
      intTruthy (some b) = false →
      (_get_base_snapshot cfg oracle a (some b)).snd =
        [pathReq (cfg.baseUrl ++ "/snapshot/base/" ++ a)]) ∧
    (∀ (cfg : Config) (oracle : Oracle) (a : String),
      (_get_trades_snapshot cfg oracle a none).snd =
        [pathReq (cfg.baseUrl ++ "/snapshot/trades/" ++ a)]) ∧
    (∀ (cfg : Config) (oracle : Oracle) (a : String) (b : Int),
      intTruthy (some b) = true →
      (_get_trades_snapshot cfg oracle a (some b)).snd =
        [pathReq (cfg.baseUrl ++ "/snapshot/trades/" ++ a ++ "/" ++ toString b)]) ∧
    (∀ (cfg : Config) (oracle : Oracle) (a : String) (b : Int),
      intTruthy (some b) = false →
      (_get_trades_snapshot cfg oracle a (some b)).snd =
        [pathReq (cfg.baseUrl ++ "/snapshot/trades/" ++ a)]) ∧
    (∀ (cfg : Config) (oracle : Oracle),
      (_get_all_trades_snapshot cfg oracle none).snd =
        [pathReq (cfg.baseUrl ++ "/snapshot/allTrades")]) ∧
    (∀ (cfg : Config) (oracle : Oracle) (b : Int),
      intTruthy (some b) = true →
      (_get_all_trades_snapshot cfg oracle (some b)).snd =
        [pathReq (cfg.baseUrl ++ "/snapshot/allTrades/" ++ toString b)]) ∧
    (∀ (cfg : Config) (oracle : Oracle) (b : Int),
      intTruthy (some b) = false →
      (_get_all_trades_snapshot cfg oracle (some b)).snd =
        [pathReq (cfg.baseUrl ++ "/snapshot/allTrades")]) ∧
    (∀ (cfg : Config) (oracle : Oracle) (a : String),
      (_get_token_price_all cfg oracle a none).snd =
        [pathReq (cfg.baseUrl ++ "/tokenPrices/all/" ++ a)]) ∧
    (∀ (cfg : Config) (oracle : Oracle) (a : String) (b : Int),
      intTruthy (some b) = true →
      (_get_token_price_all cfg oracle a (some b)).snd =
        [pathReq (cfg.baseUrl ++ "/tokenPrices/all/" ++ a ++ "/" ++ toString b)]) ∧
    (∀ (cfg : Config) (oracle : Oracle) (a : String) (b : Int),
      intTruthy (some b) = false →
      (_get_token_price_all cfg oracle a (some b)).snd =
        [pathReq (cfg.baseUrl ++ "/tokenPrices/all/" ++ a)]) := by
  refine ⟨fun _ _ => rfl, fun _ _ _ => rfl, fun _ _ _ => rfl, ?_, ?_,
    fun _ _ _ => rfl, ?_, ?_, fun _ _ => rfl, ?_, ?_,
    fun _ _ _ => rfl, ?_, ?_⟩
  · intro cfg oracle a b hb
    unfold _get_base_snapshot
    simp [hb]
    rfl
  · intro cfg oracle a b hb
    unfold _get_base_snapshot
    simp [hb]
    rfl
  · intro cfg oracle a b hb
    unfold _get_trades_snapshot
    simp [hb]
    rfl
  · intro cfg oracle a b hb
    unfold _get_trades_snapshot
    simp [hb]
    rfl
  · intro cfg oracle b hb
    unfold _get_all_trades_snapshot
    simp [hb]
    rfl
  · intro cfg oracle b hb
    unfold _get_all_trades_snapshot
    simp [hb]
    rfl
  · intro cfg oracle a b hb
    unfold _get_token_price_all
    simp [hb]
    rfl
  · intro cfg oracle a b hb
    unfold _get_token_price_all
    simp [hb]
    rfl

/-- C3 witness: concrete invocations exercising the amended clauses,
with every hypothesis discharged at the input. -/
theorem optional_block_url_selection_witness :
    (_get_ethprice cfg0 ok200 (some 0)).snd =
      [pathReq (cfg0.baseUrl ++ "/ethPrice/" ++ toString (0 : Int))] ∧
    (_get_base_snapshot cfg0 ok200 "0xpool" (some 7)).snd =
      [pathReq (cfg0.baseUrl ++ "/snapshot/base/" ++ "0xpool" ++ "/"
        ++ toString (7 : Int))] ∧
    (_get_base_snapshot cfg0 ok200 "0xpool" (some 0)).snd =
      [pathReq (cfg0.baseUrl ++ "/snapshot/base/" ++ "0xpool")] ∧
    (_get_all_trades_snapshot cfg0 ok200 (some 7)).snd =
      [pathReq (cfg0.baseUrl ++ "/snapshot/allTrades/" ++ toString (7 : Int))] :=
  ⟨optional_block_url_selection.2.1 cfg0 ok200 0,
   optional_block_url_selection.2.2.2.1 cfg0 ok200 "0xpool" 7 rfl,
   optional_block_url_selection.2.2.2.2.1 cfg0 ok200 "0xpool" 0 rfl,
   optional_block_url_selection.2.2.2.2.2.2.2.2.2.1 cfg0 ok200 7 rfl⟩

/-- C9 counterexample: a JSON body carrying the integer fields
timestamp, blockNumber (capital N, as the claim spells it) and epochEnd
does not validate against GetEpochInfoResponse: the declared field is
blocknumber, so validation reports that field as missing. -/
theorem epoch_info_capital_block_number_fails :
    GetEpochInfoResponse.validate []
      (.obj [("timestamp", .num 1), ("blockNumber", .num 2),
             ("epochEnd", .num 3)]) = .error (.missing ["blocknumber"]) ∧
    GetEpochInfoResponse.validate []
      (.obj [("timestamp", .num 1), ("blockNumber", .num 2),
             ("epochEnd", .num 3)]) ≠ .ok () :=
  ⟨rfl, fun h => nomatch h⟩

/-- C9 as amended: the epoch info tool issues a GET to the epoch path
built from the epoch id, and its response record requires exactly the
integer fields timestamp, blocknumber (all lowercase) and epochEnd: a
JSON body carrying integer fields of those exact names validates
successfully. -/
theorem epoch_info_url_and_fields :
    (∀ (cfg : Config) (oracle : Oracle) (e : Int),
      (_get_epoch_info cfg oracle e).snd =
        [pathReq (cfg.baseUrl ++ "/epoch/" ++ toString e)]) ∧
    (∀ (t b n : Int),
      GetEpochInfoResponse.validate []
        (.obj [("timestamp", .num (t : Rat)), ("blocknumber", .num (b : Rat)),
               ("epochEnd", .num (n : Rat))]) = .ok ()) :=
  ⟨fun _ _ _ => rfl, fun _ _ _ => rfl⟩

/-! Shape predicates transcribing the words of the specification for the
three top-level non-record response types (refinement targets compared
with the validators transcribed from the source). -/

/-- Fixture: a valid TokenMetadata body with a null address. -/
def tokenJsonWETH : Json :=
  .obj [("address", .null), ("name", .str "Wrapped Ether"),
        ("symbol", .str "WETH"), ("decimals", .num 18)]

/-- Fixture: a PoolMetadata body carrying every required field except
fee. -/
def poolBodyMissingFee : Json :=
  .obj [("address", .str "0xpool"), ("token0", tokenJsonWETH),
        ("token1", tokenJsonWETH), ("factory", .str "0xfactory")]

/-- Fixture: the object fields of a fully valid PoolMetadata body. -/
def poolFieldsFull : List (String × Json) :=
  [("address", .str "0xpool"), ("token0", tokenJsonWETH),
   ("token1", tokenJsonWETH), ("fee", .num 3000),
   ("factory", .str "0xfactory")]

/-- Fixture: the typed TokenMetadata the WETH body parses to. -/
def tokenWETH : TokenMetadata := ⟨none, "Wrapped Ether", "WETH", 18⟩

/-- Fixture: the typed PoolMetadata the full body parses to. -/
def poolParsed : PoolMetadata :=
  ⟨"0xpool", tokenWETH, tokenWETH, 3000, "0xfactory"⟩

/-- C5: record validation never fails because of extra undeclared
fields: appending fields whose keys are not declared keeps any record
model validating, and keeps PoolMetadata parsing to the same typed
value; while a PoolMetadata body missing the required fee field fails
with a Validation error whose path names fee. -/
theorem extra_fields_ignored_missing_field_reported :
    (∀ (specs : List FieldSpec) (path : List String)
        (fs extras : List (String × Json)),
      (∀ s ∈ specs, lookupField extras s.name = none) →
      vRecord specs path (.obj fs) = .ok () →
      vRecord specs path (.obj (fs ++ extras)) = .ok ()) ∧
    (∀ (path : List String) (fs extras : List (String × Json))
        (x : PoolMetadata),
      lookupField extras "address" = none →
      lookupField extras "token0" = none →
      lookupField extras "token1" = none →
      lookupField extras "fee" = none →
      lookupField extras "factory" = none →
      PoolMetadata.parse path (.obj fs) = .ok x →
      PoolMetadata.parse path (.obj (fs ++ extras)) = .ok x) ∧
    PoolMetadata.parse [] poolBodyMissingFee = .error (.missing ["fee"]) := by
  refine ⟨?_, ?_, rfl⟩
  · intro specs path fs extras hd hok
    show checkFields (fs ++ extras) path specs = .ok ()
    rw [checkFields_append specs fs extras path hd]
    exact hok
  · intro path fs extras x h1 h2 h3 h4 h5 hok
    simp only [PoolMetadata.parse] at hok ⊢
    rw [parseField_congr (fs ++ extras) fs "address" path parseStr
          (lookupField_append_eq fs extras "address" h1),
        parseField_congr (fs ++ extras) fs "token0" path TokenMetadata.parse
          (lookupField_append_eq fs extras "token0" h2),
        parseField_congr (fs ++ extras) fs "token1" path TokenMetadata.parse
          (lookupField_append_eq fs extras "token1" h3),
        parseField_congr (fs ++ extras) fs "fee" path parseInt
          (lookupField_append_eq fs extras "fee" h4),
        parseField_congr (fs ++ extras) fs "factory" path parseStr
          (lookupField_append_eq fs extras "factory" h5)]
    exact hok

/-- C5 witness: a health check body with one extra undeclared field
still validates, and a full PoolMetadata body with one extra undeclared
field still parses to the same typed value. -/
theorem extra_fields_ignored_missing_field_reported_witness :
    vRecord HealthCheckResponse.fields []
      (.obj ([("status", .str "ok")] ++ [("extra", .null)])) = .ok () ∧
    PoolMetadata.parse [] (.obj (poolFieldsFull ++ [("extra", .num 7)])) =
      .ok poolParsed :=
  ⟨extra_fields_ignored_missing_field_reported.1 HealthCheckResponse.fields []
      [("status", .str "ok")] [("extra", .null)]
      (by
        intro s hs
        simp only [HealthCheckResponse.fields, List.mem_singleton] at hs
        subst hs
        rfl)
      rfl,
   extra_fields_ignored_missing_field_reported.2.1 [] poolFieldsFull
      [("extra", .num 7)] poolParsed rfl rfl rfl rfl rfl rfl⟩

/-- C8: a response body in which a field declared optional (the token
address of TokenMetadata, the epoch identifier of Epoch) is missing
still validates, and the typed value carries none for that field; two
concrete-shape clauses exhibit validation succeeding with none. -/
theorem optional_fields_default_none :
    (∀ (path : List String) (fields : List (String × Json))
        (x : TokenMetadata),
      lookupField fields "address" = none →
      TokenMetadata.parse path (.obj fields) = .ok x → x.address = none) ∧
    (∀ (path : List String) (fields : List (String × Json)) (x : Epoch),
      lookupField fields "epochId" = none →
      Epoch.parse path (.obj fields) = .ok x → x.epochId = none) ∧
    (∀ (name symbol : String) (d : Int),
      TokenMetadata.parse []
        (.obj [("name", .str name), ("symbol", .str symbol),
               ("decimals", .num (d : Rat))]) =
        .ok ⟨none, name, symbol, d⟩) ∧
    (∀ (b e : Int),
      Epoch.parse []
        (.obj [("begin", .num (b : Rat)), ("end", .num (e : Rat))]) =
        .ok ⟨b, e, none⟩) := by
  refine ⟨?_, ?_, fun _ _ _ => rfl, fun _ _ => rfl⟩
  · intro path fields x h hok
    simp only [TokenMetadata.parse] at hok
    rw [show parseOptField fields "address" path parseStr = .ok none from by
      unfold parseOptField; rw [h]] at hok
    cases hn : parseField fields "name" path parseStr with
    | error e => rw [hn] at hok; simp [Bind.bind, Except.bind] at hok
    | ok nm =>
        cases hs : parseField fields "symbol" path parseStr with
        | error e => rw [hn, hs] at hok; simp [Bind.bind, Except.bind] at hok
        | ok sy =>
            cases hd : parseField fields "decimals" path parseInt with
            | error e =>
                rw [hn, hs, hd] at hok
                simp [Bind.bind, Except.bind] at hok
            | ok d =>
                rw [hn, hs, hd] at hok
                simp [Bind.bind, Except.bind] at hok
                subst hok
                rfl
  · intro path fields x h hok
    simp only [Epoch.parse] at hok
    rw [show parseOptField fields "epochId" path parseInt = .ok none from by
      unfold parseOptField; rw [h]] at hok
    cases hb : parseField fields "begin" path parseInt with
    | error e => rw [hb] at hok; simp [Bind.bind, Except.bind] at hok
    | ok b =>
        cases he : parseField fields "end" path parseInt with
        | error e => rw [hb, he] at hok; simp [Bind.bind, Except.bind] at hok
        | ok en =>
            rw [hb, he] at hok
            simp [Bind.bind, Except.bind] at hok
            subst hok
            rfl

/-- C8 witness: concrete bodies missing the optional token address and
the optional epoch identifier, with the theorem applied to conclude the
parsed values carry none. -/
theorem optional_fields_default_none_witness :
    (⟨none, "Tether USD", "USDT", 6⟩ : TokenMetadata).address = none ∧
    (⟨1, 2, none⟩ : Epoch).epochId = none :=
  ⟨optional_fields_default_none.1 []
      [("name", .str "Tether USD"), ("symbol", .str "USDT"),
       ("decimals", .num 6)]
      ⟨none, "Tether USD", "USDT", 6⟩ rfl rfl,
   optional_fields_default_none.2.1 []
      [("begin", .num 1), ("end", .num 2)] ⟨1, 2, none⟩ rfl rfl⟩

/-- Helper: when the single traced request draws a 2xx JSON body, a
handler built from getAndValidate returns the body if the model
validator accepts it and a Validation error carrying the validator
error otherwise. -/
theorem getAndValidate_2xx_json (oracle : Oracle) (r : Request)
    (V : List String → Json → Except ValErr Unit) (req : Request) (j : Json)
    (hreq : (getAndValidate oracle r V).snd = [req])
    (h2 : is2xx (oracle req).status = true)
    (hb : (oracle req).body = .json j) :
    (getAndValidate oracle r V).fst =
      (match V [] j with
       | .ok () => .ok j
       | .error e => .error (.validation e)) := by
  have hr : r = req := by simpa [getAndValidate] using hreq
  subst hr
  simp [getAndValidate, rawGet, h2, hb]

/-- Helper: when its single traced request draws a 2xx JSON body, the
token price in pool handler returns the decoded body with no
validation step at all. -/
theorem token_price_pool_2xx_json (cfg : Config) (oracle : Oracle)
    (t : String) (p : Option String) (b : Option Int) (req : Request)
    (j : Json)
    (hreq : (_get_token_price_pool cfg oracle t p b).snd = [req])
    (h2 : is2xx (oracle req).status = true)
    (hb : (oracle req).body = .json j) :
    (_get_token_price_pool cfg oracle t p b).fst = .ok j := by
  unfold _get_token_price_pool at hreq ⊢
  cases hp : strTruthy p <;> cases hbt : intTruthy b <;>
    simp only [hp, hbt, Bool.and_self, Bool.and_true, Bool.and_false,
      Bool.true_and, Bool.false_and, Bool.false_eq_true, reduceIte] at hreq ⊢
  · exact absurd hreq (by simp)
  · exact absurd hreq (by simp)
  · simp only [List.cons.injEq, and_true] at hreq
    subst hreq
    simp [rawGet, h2, hb]
  · simp only [List.cons.injEq, and_true] at hreq
    subst hreq
    simp [rawGet, h2, hb]

/-- C1 counterexample: against a network answering 200 with the JSON
string body oops, the token price in pool tool returns that body as a
successful value even though it fails the declared float schema of the
tool, so not every tool validates before returning. -/
theorem token_price_pool_returns_unvalidated :
    (_get_token_price_pool cfg0 oracleStr "0xt" (some "0xp") none).fst =
      .ok (.str "oops") ∧
    tokenPricePoolDeclaredSchema (.str "oops") = false :=
  ⟨rfl, rfl⟩

/-- C1 as amended: for every tool except token price in pool, a 2xx
response to the traced GET is parsed as JSON and checked against the
declared model validator before being returned, and a body failing that
validator makes the invocation fail with a Validation error carrying
the validator error; the token price in pool tool instead returns the
parsed JSON body with no schema validation. -/
theorem validated_before_return :
    (∀ (cfg : Config) (oracle : Oracle) (a : String) (req : Request) (j : Json),
      (_get_pool_metadata cfg oracle a).snd = [req] →
      is2xx (oracle req).status = true → (oracle req).body = .json j →
      (_get_pool_metadata cfg oracle a).fst =
        (match PoolMetadata.validate [] j with
         | .ok () => .ok j
         | .error e => .error (.validation e))) ∧
    (∀ (cfg : Config) (oracle : Oracle) (a : String) (req : Request) (j : Json),
      (_get_token_pools cfg oracle a).snd = [req] →
      is2xx (oracle req).status = true → (oracle req).body = .json j →
      (_get_token_pools cfg oracle a).fst =
        (match GetTokenPoolsResponse.validate [] j with
         | .ok () => .ok j
         | .error e => .error (.validation e))) ∧
    (∀ (cfg : Config) (oracle : Oracle) (b : Option Int) (req : Request)
        (j : Json),
      (_get_ethprice cfg oracle b).snd = [req] →
      is2xx (oracle req).status = true → (oracle req).body = .json j →
      (_get_ethprice cfg oracle b).fst =
        (match GetEthPriceResponse.validate [] j with
         | .ok () => .ok j
         | .error e => .error (.validation e))) ∧
    (∀ (cfg : Config) (oracle : Oracle) (t : String) (p : Option String)
        (b : Option Int) (req : Request) (j : Json),
      (_get_token_price_pool cfg oracle t p b).snd = [req] →
      is2xx (oracle req).status = true → (oracle req).body = .json j →
      (_get_token_price_pool cfg oracle t p b).fst = .ok j) ∧
    (∀ (cfg : Config) (oracle : Oracle) (a : String) (req : Request) (j : Json),
      (_get_token_base_snapshots cfg oracle a).snd = [req] →
      is2xx (oracle req).status = true → (oracle req).body = .json j →
      (_get_token_base_snapshots cfg oracle a).fst =
        (match GetTokenBaseSnapshotsResponse.validate [] j with
         | .ok () => .ok j
         | .error e => .error (.validation e))) ∧
    (∀ (cfg : Config) (oracle : Oracle) (a : String) (b : Option Int)
        (req : Request) (j : Json),
      (_get_base_snapshot cfg oracle a b).snd = [req] →
      is2xx (oracle req).status = true → (oracle req).body = .json j →
      (_get_base_snapshot cfg oracle a b).fst =
        (match GetBaseSnapshotResponse.validate [] j with
         | .ok () => .ok j
         | .error e => .error (.validation e))) ∧
    (∀ (cfg : Config) (oracle : Oracle) (a : String) (b : Option Int)
        (req : Request) (j : Json),
      (_get_trades_snapshot cfg oracle a b).snd = [req] →
      is2xx (oracle req).status = true → (oracle req).body = .json j →
      (_get_trades_snapshot cfg oracle a b).fst =
        (match GetTradesSnapshotResponse.validate [] j with
         | .ok () => .ok j
         | .error e => .error (.validation e))) ∧
    (∀ (cfg : Config) (oracle : Oracle) (b : Option Int) (req : Request)
        (j : Json),
      (_get_all_trades_snapshot cfg oracle b).snd = [req] →
      is2xx (oracle req).status = true → (oracle req).body = .json j →
      (_get_all_trades_snapshot cfg oracle b).fst =
        (match GetAllTradesSnapshotResponse.validate [] j with
         | .ok () => .ok j
         | .error e => .error (.validation e))) ∧
    (∀ (cfg : Config) (oracle : Oracle) (a : String) (b : Option Int)
        (req : Request) (j : Json),
      (_get_token_price_all cfg oracle a b).snd = [req] →
      is2xx (oracle req).status = true → (oracle req).body = .json j →
      (_get_token_price_all cfg oracle a b).fst =
        (match GetTokenPriceAllResponse.validate [] j with
         | .ok () => .ok j
         | .error e => .error (.validation e))) ∧
    (∀ (cfg : Config) (oracle : Oracle) (a : String) (ti : Int)
        (req : Request) (j : Json),
      (_get_trade_volume_agg_all_pools cfg oracle a ti).snd = [req] →
      is2xx (oracle req).status = true → (oracle req).body = .json j →
      (_get_trade_volume_agg_all_pools cfg oracle a ti).fst =
        (match GetTradeVolumeAggResponse.validate [] j with
         | .ok () => .ok j
         | .error e => .error (.validation e))) ∧
    (∀ (cfg : Config) (oracle : Oracle) (a : String) (ti : Int)
        (req : Request) (j : Json),
      (_get_trade_volume_agg cfg oracle a ti).snd = [req] →
      is2xx (oracle req).status = true → (oracle req).body = .json j →
      (_get_trade_volume_agg cfg oracle a ti).fst =
        (match GetTradeVolumeAggResponse.validate [] j with
         | .ok () => .ok j
         | .error e => .error (.validation e))) ∧
    (∀ (cfg : Config) (oracle : Oracle) (a : String) (s e2 : Int)
        (req : Request) (j : Json),
      (_get_pool_trades cfg oracle a s e2).snd = [req] →
      is2xx (oracle req).status = true → (oracle req).body = .json j →
      (_get_pool_trades cfg oracle a s e2).fst =
        (match GetPoolTradesResponse.validate [] j with
         | .ok () => .ok j
         | .error e => .error (.validation e))) ∧
    (∀ (cfg : Config) (oracle : Oracle) (t p : String) (ti st : Int)
        (req : Request) (j : Json),
      (_get_token_price_series cfg oracle t p ti st).snd = [req] →
      is2xx (oracle req).status = true → (oracle req).body = .json j →
      (_get_token_price_series cfg oracle t p ti st).fst =
        (match GetTokenPriceSeriesResponse.validate [] j with
         | .ok () => .ok j
         | .error e => .error (.validation e))) ∧
    (∀ (cfg : Config) (oracle : Oracle) (pg sz : Int) (md : Bool) (ti : Int)
        (req : Request) (j : Json),
      (_get_daily_active_tokens cfg oracle pg sz md ti).snd = [req] →
      is2xx (oracle req).status = true → (oracle req).body = .json j →
      (_get_daily_active_tokens cfg oracle pg sz md ti).fst =
        (match GetDailyActiveTokensResponse.validate [] j with
         | .ok () => .ok j
         | .error e => .error (.validation e))) ∧
    (∀ (cfg : Config) (oracle : Oracle) (pg sz : Int) (md : Bool) (ti : Int)
        (req : Request) (j : Json),
      (_get_daily_active_pools cfg oracle pg sz md ti).snd = [req] →
      is2xx (oracle req).status = true → (oracle req).body = .json j →
      (_get_daily_active_pools cfg oracle pg sz md ti).fst =
        (match GetDailyActivePoolsResponse.validate [] j with
         | .ok () => .ok j
         | .error e => .error (.validation e))) ∧
    (∀ (cfg : Config) (oracle : Oracle) (req : Request) (j : Json),
      (_health_check cfg oracle).snd = [req] →
      is2xx (oracle req).status = true → (oracle req).body = .json j →
      (_health_check cfg oracle).fst =
        (match HealthCheckResponse.validate [] j with
         | .ok () => .ok j
         | .error e => .error (.validation e))) ∧
    (∀ (cfg : Config) (oracle : Oracle) (req : Request) (j : Json),
      (_get_current_epoch_data cfg oracle).snd = [req] →
      is2xx (oracle req).status = true → (oracle req).body = .json j →
      (_get_current_epoch_data cfg oracle).fst =
        (match GetCurrentEpochDataResponse.validate [] j with
         | .ok () => .ok j
         | .error e => .error (.validation e))) ∧
    (∀ (cfg : Config) (oracle : Oracle) (e2 : Int) (req : Request) (j : Json),
      (_get_epoch_info cfg oracle e2).snd = [req] →
      is2xx (oracle req).status = true → (oracle req).body = .json j →
      (_get_epoch_info cfg oracle e2).fst =
        (match GetEpochInfoResponse.validate [] j with
         | .ok () => .ok j
         | .error e => .error (.validation e))) ∧
    (∀ (cfg : Config) (oracle : Oracle) (p : String) (req : Request)
        (j : Json),
      (_get_project_last_finalized_epoch_info cfg oracle p).snd = [req] →
      is2xx (oracle req).status = true → (oracle req).body = .json j →
      (_get_project_last_finalized_epoch_info cfg oracle p).fst =
        (match GetProjectLastFinalizedEpochInfoResponse.validate [] j with
         | .ok () => .ok j
         | .error e => .error (.validation e))) ∧
    (∀ (cfg : Config) (oracle : Oracle) (p : String) (e2 : Int)
        (req : Request) (j : Json),
      (_get_data_for_project_id_epoch_id cfg oracle p e2).snd = [req] →
      is2xx (oracle req).status = true → (oracle req).body = .json j →
      (_get_data_for_project_id_epoch_id cfg oracle p e2).fst =
        (match GetDataForProjectIdEpochIdResponse.validate [] j with
         | .ok () => .ok j
         | .error e => .error (.validation e))) ∧
    (∀ (cfg : Config) (oracle : Oracle) (p : String) (e2 : Int)
        (req : Request) (j : Json),
      (_get_finalized_cid_for_project_id_epoch_id cfg oracle p e2).snd = [req] →
      is2xx (oracle req).status = true → (oracle req).body = .json j →
      (_get_finalized_cid_for_project_id_epoch_id cfg oracle p e2).fst =
        (match GetFinalizedCidForProjectIdEpochIdResponse.validate [] j with
         | .ok () => .ok j
         | .error e => .error (.validation e))) :=
  ⟨fun _ oracle a req j hreq h2 hb =>
     getAndValidate_2xx_json oracle _ _ req j hreq h2 hb,
   fun _ oracle a req j hreq h2 hb =>
     getAndValidate_2xx_json oracle _ _ req j hreq h2 hb,
   fun cfg oracle b req j hreq h2 hb =>
     match b with
     | none => getAndValidate_2xx_json oracle _ _ req j hreq h2 hb
     | some _ => getAndValidate_2xx_json oracle _ _ req j hreq h2 hb,
   fun cfg oracle t p b req j hreq h2 hb =>
     token_price_pool_2xx_json cfg oracle t p b req j hreq h2 hb,
   fun _ oracle a req j hreq h2 hb =>
     getAndValidate_2xx_json oracle _ _ req j hreq h2 hb,
   fun cfg oracle a b req j hreq h2 hb => by
     unfold _get_base_snapshot at hreq ⊢
     cases hbt : intTruthy b <;>
       simp only [hbt, Bool.false_eq_true, reduceIte] at hreq ⊢ <;>
       exact getAndValidate_2xx_json oracle _ _ req j hreq h2 hb,
   fun cfg oracle a b req j hreq h2 hb => by
     unfold _get_trades_snapshot at hreq ⊢
     cases hbt : intTruthy b <;>
       simp only [hbt, Bool.false_eq_true, reduceIte] at hreq ⊢ <;>
       exact getAndValidate_2xx_json oracle _ _ req j hreq h2 hb,
   fun cfg oracle b req j hreq h2 hb => by
     unfold _get_all_trades_snapshot at hreq ⊢
     cases hbt : intTruthy b <;>
       simp only [hbt, Bool.false_eq_true, reduceIte] at hreq ⊢ <;>
       exact getAndValidate_2xx_json oracle _ _ req j hreq h2 hb,
   fun cfg oracle a b req j hreq h2 hb => by
     unfold _get_token_price_all at hreq ⊢
     cases hbt : intTruthy b <;>
       simp only [hbt, Bool.false_eq_true, reduceIte] at hreq ⊢ <;>
       exact getAndValidate_2xx_json oracle _ _ req j hreq h2 hb,
   fun _ oracle a ti req j hreq h2 hb =>
     getAndValidate_2xx_json oracle _ _ req j hreq h2 hb,
   fun _ oracle a ti req j hreq h2 hb =>
     getAndValidate_2xx_json oracle _ _ req j hreq h2 hb,
   fun _ oracle a s e2 req j hreq h2 hb =>
     getAndValidate_2xx_json oracle _ _ req j hreq h2 hb,
   fun _ oracle t p ti st req j hreq h2 hb =>
     getAndValidate_2xx_json oracle _ _ req j hreq h2 hb,
   fun _ oracle pg sz md ti req j hreq h2 hb =>
     getAndValidate_2xx_json oracle _ _ req j hreq h2 hb,
   fun _ oracle pg sz md ti req j hreq h2 hb =>
     getAndValidate_2xx_json oracle _ _ req j hreq h2 hb,
   fun _ oracle req j hreq h2 hb =>
     getAndValidate_2xx_json oracle _ _ req j hreq h2 hb,
   fun _ oracle req j hreq h2 hb =>
     getAndValidate_2xx_json oracle _ _ req j hreq h2 hb,
   fun _ oracle e2 req j hreq h2 hb =>
     getAndValidate_2xx_json oracle _ _ req j hreq h2 hb,
   fun _ oracle p req j hreq h2 hb =>
     getAndValidate_2xx_json oracle _ _ req j hreq h2 hb,
   fun _ oracle p e2 req j hreq h2 hb =>
     getAndValidate_2xx_json oracle _ _ req j hreq h2 hb,
   fun _ oracle p e2 req j hreq h2 hb =>
     getAndValidate_2xx_json oracle _ _ req j hreq h2 hb⟩

/-- C1 witness: against the 200 network whose body is the JSON string
oops, the pool metadata tool fails with a Validation error (the body is
not an object), by the first clause of the theorem with every
hypothesis discharged at the input. -/
theorem validated_before_return_witness :
    (_get_pool_metadata cfg0 oracleStr "0xp").fst =
      .error (.validation (.wrongType [])) :=
  validated_before_return.1 cfg0 oracleStr "0xp"
    (pathReq "https://bds-api.powerloom.io/pool/0xp/metadata")
    (.str "oops") rfl rfl rfl
